import Mathlib

/-!
Verification development for the kodegen-native-notify notification
library.  The definitions below are a shallow embedding of the Rust
sources (src/src/lib.rs, src/src/components/lifecycle.rs,
src/src/components/platform.rs, src/src/components/content.rs,
src/src/backends/image_utils.rs).  Machine clocks (`Instant`,
`SystemTime`) are embedded as `Nat` timestamps passed explicitly;
durations are `Nat` (milliseconds-like units, only compared).  Rust
`HashMap`s are embedded as association lists with replace-on-insert.
-/

namespace Notify

/-- Association-list lookup (embedding of `HashMap::get`). -/
def assocLookup {α β : Type} [DecidableEq α] : List (α × β) → α → Option β
  | [], _ => none
  | (k, v) :: rest, key => if k = key then some v else assocLookup rest key

/-- Association-list insert with replacement (embedding of `HashMap::insert`). -/
def assocInsert {α β : Type} [DecidableEq α] : List (α × β) → α → β → List (α × β)
  | [], key, val => [(key, val)]
  | (k, v) :: rest, key, val =>
      if k = key then (key, val) :: rest else (k, v) :: assocInsert rest key val

/-- `Platform` from src/src/components/platform.rs. -/
inductive Platform
  | MacOS
  | Windows
  | Linux
  | Web
  | IOs
  | Android
deriving DecidableEq, Repr

/-- `Platform::name` from src/src/components/platform.rs. -/
def Platform.name : Platform → String
  | .MacOS => "macOS"
  | .Windows => "Windows"
  | .Linux => "Linux"
  | .Web => "Web"
  | .IOs => "iOS"
  | .Android => "Android"

/-- `ErrorType` from src/src/components/lifecycle.rs. -/
inductive ErrorType
  | ValidationError
  | AuthorizationError
  | NetworkError
  | PlatformError
  | TimeoutError
  | ResourceError
  | ConfigurationError
deriving DecidableEq, Repr

/-- `ErrorDetails` from src/src/components/lifecycle.rs.
`platform_errors : HashMap<Platform, String>` as an association list. -/
structure ErrorDetails where
  error_type : ErrorType
  message : String
  retry_count : Nat
  last_attempt : Option Nat
  platform_errors : List (Platform × String)
deriving DecidableEq, Repr

/-- `NotificationState` from src/src/components/lifecycle.rs (14 states). -/
inductive NotificationState
  | Created
  | Validating
  | PlatformRouting
  | Queued
  | Delivering
  | Delivered
  | InteractionPending
  | InteractionReceived
  | ProcessingResponse
  | Updated
  | Cancelled
  | Expired
  | Failed (details : ErrorDetails)
  | Completed
deriving DecidableEq, Repr

/-- `NotificationState::can_transition_to`, lines 314-383 of
src/src/components/lifecycle.rs, match arm for match arm. -/
def NotificationState.can_transition_to :
    NotificationState → NotificationState → Bool
  | .Created, .Validating => true
  | .Created, .Cancelled => true
  | .Validating, .PlatformRouting => true
  | .Validating, .Failed _ => true
  | .Validating, .Cancelled => true
  | .PlatformRouting, .Queued => true
  | .PlatformRouting, .Delivering => true
  | .PlatformRouting, .Failed _ => true
  | .PlatformRouting, .Cancelled => true
  | .Queued, .Delivering => true
  | .Queued, .Expired => true
  | .Queued, .Cancelled => true
  | .Delivering, .Delivered => true
  | .Delivering, .Failed _ => true
  | .Delivering, .Expired => true
  | .Delivering, .Cancelled => true
  | .Delivered, .InteractionPending => true
  | .Delivered, .InteractionReceived => true
  | .Delivered, .Updated => true
  | .Delivered, .Expired => true
  | .Delivered, .Completed => true
  | .InteractionPending, .InteractionReceived => true
  | .InteractionPending, .ProcessingResponse => true
  | .InteractionPending, .Expired => true
  | .InteractionReceived, .ProcessingResponse => true
  | .InteractionReceived, .Completed => true
  | .ProcessingResponse, .InteractionPending => true
  | .ProcessingResponse, .Completed => true
  | .ProcessingResponse, .Failed _ => true
  | .Updated, .Delivering => true
  | .Updated, .InteractionPending => true
  | .Updated, .Completed => true
  | .Failed _, .Validating => true
  | .Failed _, .PlatformRouting => true
  | .Failed _, .Delivering => true
  | .Failed _, .Cancelled => true
  | _, _ => false

/-- `NotificationState::is_terminal` from src/src/components/lifecycle.rs. -/
def NotificationState.is_terminal : NotificationState → Bool
  | .Cancelled => true
  | .Expired => true
  | .Completed => true
  | _ => false

/-- `NotificationState::is_failed` from src/src/components/lifecycle.rs. -/
def NotificationState.is_failed : NotificationState → Bool
  | .Failed _ => true
  | _ => false

/-- `NotificationError` from src/src/components/mod.rs
(`timeout_duration : Duration` as `Nat`). -/
inductive NotificationError
  | PlatformError (platform : String) (error_code : Option Int) (message : String)
  | ValidationError (field : String) (message : String)
  | AuthorizationError (platform : String) (required_permission : String)
  | ResourceError (resource_type : String) (resource_id : String) (message : String)
  | TimeoutError (operation : String) (timeout_duration : Nat)
  | ResourceExhausted (resource_type : String) (limit : Nat) (requested : Nat)
  | SanitizationError (content_type : String) (message : String)
deriving DecidableEq, Repr

/-- `TransitionReason` from src/src/components/lifecycle.rs. -/
inductive TransitionReason
  | Initial
  | ValidationCompleted
  | ValidationFailed
  | PlatformCapabilitiesResolved
  | QueuedByAttentionManager
  | DeliveryStarted
  | DeliveryCompleted
  | DeliveryFailed
  | UserInteraction
  | Timeout
  | Cancellation
  | Expiration
  | Retry
  | Update
  | SystemEvent
deriving DecidableEq, Repr

/-- `StateTransition` from src/src/components/lifecycle.rs
(`timestamp : Instant` as `Nat`, `CorrelationId` as `String`). -/
structure StateTransition where
  from_state : Option NotificationState
  to_state : NotificationState
  timestamp : Nat
  reason : TransitionReason
  correlation_id : Option String
deriving DecidableEq, Repr

/-- `NotificationTiming` from src/src/components/lifecycle.rs.
All `DefaultableInstant` values are `Nat` instants, `Duration`s are `Nat`. -/
structure NotificationTiming where
  created_at : Nat
  validation_started : Option Nat
  validation_duration : Option Nat
  platform_routing_started : Option Nat
  queued_at : Option Nat
  queue_duration : Option Nat
  delivery_started : Option Nat
  delivery_duration : Option Nat
  delivered_at : Option Nat
  last_interaction : Option Nat
  failed_at : Option Nat
  expired_at : Option Nat
  total_processing_time : Option Nat
deriving DecidableEq, Repr

/-- `NotificationTiming::new` from src/src/components/lifecycle.rs. -/
def NotificationTiming.new (created_at : Nat) : NotificationTiming where
  created_at := created_at
  validation_started := none
  validation_duration := none
  platform_routing_started := none
  queued_at := none
  queue_duration := none
  delivery_started := none
  delivery_duration := none
  delivered_at := none
  last_interaction := none
  failed_at := none
  expired_at := none
  total_processing_time := none

/-- `CircuitBreakerState` from src/src/components/lifecycle.rs. -/
inductive CircuitBreakerState
  | Closed
  | Open
  | HalfOpen
deriving DecidableEq, Repr

/-- `BackoffStrategy` from src/src/components/lifecycle.rs; delays are `Nat`
milliseconds.  The `f64` `multiplier`/`jitter` parameters of
`ExponentialWithJitter` are floating point and are not consulted by any
claim, so they are not carried here. -/
inductive BackoffStrategy
  | Fixed (delay : Nat)
  | Linear (base_delay : Nat) (increment : Nat) (max_delay : Nat)
  | ExponentialWithJitter (base_delay : Nat) (max_delay : Nat)
deriving DecidableEq, Repr

/-- `RetryPolicy` from src/src/components/lifecycle.rs. -/
structure RetryPolicy where
  max_attempts : Nat
  current_attempt : Nat
  backoff_strategy : BackoffStrategy
  circuit_breaker_state : CircuitBreakerState
  circuit_breaker_threshold : Nat
  circuit_breaker_opened_at : Option Nat
  circuit_breaker_timeout : Nat
  consecutive_failures : Nat
  last_error : Option NotificationError
  last_attempt : Option Nat
deriving DecidableEq, Repr

/-- `RetryPolicy::default` from src/src/components/lifecycle.rs
(durations in milliseconds: 100 ms base, 30 s max, 5 min breaker timeout). -/
def RetryPolicy.defaultPolicy : RetryPolicy where
  max_attempts := 3
  current_attempt := 0
  backoff_strategy := .ExponentialWithJitter 100 30000
  circuit_breaker_state := .Closed
  circuit_breaker_threshold := 5
  circuit_breaker_opened_at := none
  circuit_breaker_timeout := 5 * 60 * 1000
  consecutive_failures := 0
  last_error := none
  last_attempt := none

/-- `ExpirationPolicy` from src/src/components/lifecycle.rs. -/
structure ExpirationPolicy where
  ttl : Option Nat
  expires_at : Option Nat
  delivery_timeout : Nat
  interaction_timeout : Nat
  cleanup_on_expiry : Bool
deriving DecidableEq, Repr

/-- `ExpirationPolicy::default` from src/src/components/lifecycle.rs
(1 h TTL, 30 s delivery timeout, 10 min interaction timeout, in ms). -/
def ExpirationPolicy.defaultPolicy : ExpirationPolicy where
  ttl := some (60 * 60 * 1000)
  expires_at := none
  delivery_timeout := 30 * 1000
  interaction_timeout := 10 * 60 * 1000
  cleanup_on_expiry := true

/-- `DeliveryReceipt` from src/src/components/lifecycle.rs. -/
structure DeliveryReceipt where
  platform : Platform
  native_id : String
  delivered_at : Nat
  delivery_latency : Nat
  receipt_id : String
  metadata : List (String × String)
deriving DecidableEq, Repr

/-- `PlatformDeliveryStatus` from src/src/components/lifecycle.rs. -/
inductive PlatformDeliveryStatus
  | Pending
  | InProgress
  | Delivered
  | Failed (msg : String)
  | Cancelled
deriving DecidableEq, Repr

/-- `PlatformError` from src/src/components/lifecycle.rs. -/
structure PlatformError where
  error_code : Option Int
  error_message : String
  retry_after : Option Nat
  is_permanent : Bool
deriving DecidableEq, Repr

/-- `PlatformDeliveryState` from src/src/components/lifecycle.rs. -/
structure PlatformDeliveryState where
  platform : Platform
  status : PlatformDeliveryStatus
  native_id : Option String
  attempt_count : Nat
  last_attempt : Option Nat
  delivery_latency : Option Nat
  error_details : Option PlatformError
deriving DecidableEq, Repr

/-- `StateTransitionMetric` from src/src/components/lifecycle.rs. -/
structure StateTransitionMetric where
  from_state : NotificationState
  to_state : NotificationState
  timestamp : Nat
  duration_in_previous_state : Option Nat
deriving DecidableEq, Repr

/-- `OverallMetrics` from src/src/components/lifecycle.rs.  The `f64` rate
fields (success_rate, error_rate, retry_rate, average_processing_time) are
floating point and untouched by every modeled operation; only the counter
is carried. -/
structure OverallMetrics where
  total_state_transitions : Nat
deriving DecidableEq, Repr

/-- `PerformanceMetrics` from src/src/components/lifecycle.rs.  The
`platform_metrics` map holds `f64`-valued entries and is never touched by
`record_state_transition`; it is not carried. -/
structure PerformanceMetrics where
  state_transitions : List StateTransitionMetric
  overall_metrics : OverallMetrics
deriving DecidableEq, Repr

/-- `PerformanceMetrics::new` from src/src/components/lifecycle.rs. -/
def PerformanceMetrics.new : PerformanceMetrics where
  state_transitions := []
  overall_metrics := { total_state_transitions := 0 }

/-- Replace the last element of a list (embedding of `Vec::last_mut`
mutation; the empty list is left unchanged). -/
def updateLast {α : Type} (f : α → α) : List α → List α
  | [] => []
  | [x] => [f x]
  | x :: rest => x :: updateLast f rest

/-- `PerformanceMetrics::record_state_transition` from
src/src/components/lifecycle.rs: fill in the previous entry's
`duration_in_previous_state`, push the new metric, bump the counter.
`Instant::duration_since` is truncated subtraction on `Nat` instants. -/
def PerformanceMetrics.record_state_transition (m : PerformanceMetrics)
    (from_state to_state : NotificationState) (timestamp : Nat) :
    PerformanceMetrics :=
  let transition : StateTransitionMetric :=
    { from_state := from_state, to_state := to_state, timestamp := timestamp
      duration_in_previous_state := none }
  let withDuration := updateLast
    (fun last =>
      { last with duration_in_previous_state := some (timestamp - last.timestamp) })
    m.state_transitions
  { state_transitions := withDuration ++ [transition]
    overall_metrics := { total_state_transitions :=
        m.overall_metrics.total_state_transitions + 1 } }

/-- `NotificationLifecycle` from src/src/components/lifecycle.rs. -/
structure NotificationLifecycle where
  state : NotificationState
  platform_states : List (Platform × PlatformDeliveryState)
  timing : NotificationTiming
  retry_policy : RetryPolicy
  expiration : ExpirationPolicy
  delivery_receipt : Option DeliveryReceipt
  state_history : List StateTransition
  performance_metrics : PerformanceMetrics
deriving DecidableEq, Repr

/-- `NotificationLifecycle::new` from src/src/components/lifecycle.rs;
`now` stands for `DefaultableInstant::now()`. -/
def NotificationLifecycle.new (now : Nat) : NotificationLifecycle where
  state := .Created
  platform_states := []
  timing := NotificationTiming.new now
  retry_policy := RetryPolicy.defaultPolicy
  expiration := ExpirationPolicy.defaultPolicy
  delivery_receipt := none
  state_history := [{ from_state := none, to_state := .Created
                      timestamp := now, reason := .Initial
                      correlation_id := none }]
  performance_metrics := PerformanceMetrics.new

/-- The timing update block of `NotificationLifecycle::transition_to`
(the `match &new_state` on lines 98-134 of src/src/components/lifecycle.rs). -/
def transitionTimingUpdate (timing : NotificationTiming)
    (new_state : NotificationState) (now : Nat) : NotificationTiming :=
  match new_state with
  | .Validating => { timing with validation_started := some now }
  | .PlatformRouting =>
      let timing := match timing.validation_started with
        | some validation_start =>
            { timing with validation_duration := some (now - validation_start) }
        | none => timing
      { timing with platform_routing_started := some now }
  | .Queued => { timing with queued_at := some now }
  | .Delivering => { timing with delivery_started := some now }
  | .Delivered =>
      let timing := match timing.delivery_started with
        | some delivery_start =>
            { timing with delivery_duration := some (now - delivery_start) }
        | none => timing
      { timing with delivered_at := some now
                    total_processing_time := some (now - timing.created_at) }
  | .InteractionReceived => { timing with last_interaction := some now }
  | .Failed _ => { timing with failed_at := some now }
  | .Expired => { timing with expired_at := some now }
  | _ => timing

/-- `NotificationLifecycle::transition_to` from
src/src/components/lifecycle.rs (lines 68-145).  The Rust method mutates
`&mut self` and returns `NotificationResult<()>`; here the pair carries
the result together with the (possibly unchanged) receiver.  The error
message of the Rust code interpolates the two states with `{:?}`; the
embedded message keeps the fixed prefix only, which no claim inspects. -/
def NotificationLifecycle.transition_to (l : NotificationLifecycle)
    (new_state : NotificationState) (reason : TransitionReason)
    (correlation_id : Option String) (now : Nat) :
    Except NotificationError Unit × NotificationLifecycle :=
  if ¬ l.state.can_transition_to new_state then
    (.error (.ValidationError "state_transition" "Invalid transition"), l)
  else
    let previous_state := l.state
    let transition : StateTransition :=
      { from_state := some previous_state, to_state := new_state
        timestamp := now, reason := reason, correlation_id := correlation_id }
    let timing := transitionTimingUpdate l.timing new_state now
    (.ok (),
      { l with
          state := new_state
          timing := timing
          state_history := l.state_history ++ [transition]
          performance_metrics :=
            l.performance_metrics.record_state_transition previous_state
              new_state now })

/-- `NotificationLifecycle::should_retry` from
src/src/components/lifecycle.rs (lines 184-188). -/
def NotificationLifecycle.should_retry (l : NotificationLifecycle) : Bool :=
  l.state.is_failed
    && decide (l.retry_policy.current_attempt < l.retry_policy.max_attempts)
    && l.retry_policy.circuit_breaker_state == .Closed

/-- `RateLimit` from src/src/components/platform.rs. -/
structure RateLimit where
  requests_per_minute : Nat
  burst_limit : Nat
  cooldown_period : Nat
deriving DecidableEq, Repr

/-- `PermissionLevel` from src/src/components/platform.rs. -/
inductive PermissionLevel
  | Display
  | Sound
  | Badge
  | Media
  | Actions
  | Background
  | Location
  | MediaCapture
  | Critical
deriving DecidableEq, Repr

/-- `CompatibilityLevel` from src/src/components/platform.rs. -/
inductive CompatibilityLevel
  | Full
  | High
  | Medium
  | Low
  | None
deriving DecidableEq, Repr

/-- `PlatformCapabilities` from src/src/components/platform.rs.
Durations are `Nat`; the two `HashMap` fields are association lists. -/
structure PlatformCapabilities where
  supports_actions : Bool
  supports_rich_media : Bool
  supports_markup : Bool
  supports_sound : Bool
  supports_scheduling : Bool
  supports_progress : Bool
  supports_categories : Bool
  supports_replies : Bool
  supports_custom_ui : Bool
  supports_background_activation : Bool
  supports_update_content : Bool
  supports_persistent : Bool
  supports_priority : Bool
  supports_grouping : Bool
  supports_badges : Bool
  supports_vibration : Bool
  max_actions : Option Nat
  max_title_length : Option Nat
  max_body_length : Option Nat
  max_image_size : Option Nat
  max_sound_duration : Option Nat
  platform_features : List (String × Bool)
  platform_limits : List (String × Nat)
  authorization_required : Bool
  permission_levels : List PermissionLevel
  platform_version : Option String
  api_version : Option String
  compatibility_level : CompatibilityLevel
  delivery_latency_estimate : Option Nat
  supports_batching : Bool
  rate_limits : Option RateLimit
deriving DecidableEq, Repr

/-- `PlatformCapabilities::default` from src/src/components/platform.rs. -/
def PlatformCapabilities.defaultCaps : PlatformCapabilities where
  supports_actions := false
  supports_rich_media := false
  supports_markup := false
  supports_sound := false
  supports_scheduling := false
  supports_progress := false
  supports_categories := false
  supports_replies := false
  supports_custom_ui := false
  supports_background_activation := false
  supports_update_content := false
  supports_persistent := false
  supports_priority := false
  supports_grouping := false
  supports_badges := false
  supports_vibration := false
  max_actions := none
  max_title_length := none
  max_body_length := none
  max_image_size := none
  max_sound_duration := none
  platform_features := []
  platform_limits := []
  authorization_required := false
  permission_levels := []
  platform_version := none
  api_version := none
  compatibility_level := .Full
  delivery_latency_estimate := none
  supports_batching := false
  rate_limits := none

/-- `Platform::default_capabilities` from src/src/components/platform.rs
(lines 182-250). -/
def Platform.default_capabilities : Platform → PlatformCapabilities
  | .MacOS =>
      { PlatformCapabilities.defaultCaps with
          supports_actions := true
          supports_rich_media := true
          supports_markup := false
          supports_sound := true
          supports_scheduling := true
          supports_progress := false
          supports_categories := true
          supports_replies := true
          max_actions := some 4
          max_title_length := some 256
          max_body_length := some 2048
          max_image_size := some 10485760
          authorization_required := true }
  | .Windows =>
      { PlatformCapabilities.defaultCaps with
          supports_actions := true
          supports_rich_media := true
          supports_markup := true
          supports_sound := true
          supports_scheduling := false
          supports_progress := true
          supports_categories := false
          supports_replies := false
          max_actions := some 5
          max_title_length := some 128
          max_body_length := some 1024
          max_image_size := some 204800
          authorization_required := false }
  | .Linux =>
      { PlatformCapabilities.defaultCaps with
          supports_actions := true
          supports_rich_media := true
          supports_markup := false
          supports_sound := true
          supports_scheduling := false
          supports_progress := false
          supports_categories := false
          supports_replies := false
          max_actions := none
          max_title_length := some 512
          max_body_length := some 4096
          max_image_size := some 1048576
          authorization_required := false }
  | .Web =>
      { PlatformCapabilities.defaultCaps with
          supports_actions := true
          supports_rich_media := true
          supports_markup := false
          supports_sound := false
          supports_scheduling := false
          supports_progress := false
          supports_categories := false
          supports_replies := false
          max_actions := some 2
          max_title_length := some 256
          max_body_length := some 2048
          max_image_size := some 512000
          authorization_required := true }
  | _ => PlatformCapabilities.defaultCaps

/-- `PlatformCapabilities::get_limits` from src/src/components/platform.rs
(lines 342-359). -/
def PlatformCapabilities.get_limits (caps : PlatformCapabilities) :
    List (String × Nat) :=
  let limits := caps.platform_limits
  let limits := match caps.max_actions with
    | some max_actions => assocInsert limits "max_actions" max_actions
    | none => limits
  let limits := match caps.max_title_length with
    | some max_title => assocInsert limits "max_title_length" max_title
    | none => limits
  let limits := match caps.max_body_length with
    | some max_body => assocInsert limits "max_body_length" max_body
    | none => limits
  let limits := match caps.max_image_size with
    | some max_image => assocInsert limits "max_image_size" max_image
    | none => limits
  limits

/-- `PlatformCapabilities::supports_feature` from
src/src/components/platform.rs (lines 376-400). -/
def PlatformCapabilities.supports_feature (caps : PlatformCapabilities)
    (feature : String) : Bool :=
  match feature with
  | "actions" => caps.supports_actions
  | "rich_media" => caps.supports_rich_media
  | "markup" => caps.supports_markup
  | "sound" => caps.supports_sound
  | "scheduling" => caps.supports_scheduling
  | "progress" => caps.supports_progress
  | "categories" => caps.supports_categories
  | "replies" => caps.supports_replies
  | "custom_ui" => caps.supports_custom_ui
  | "background_activation" => caps.supports_background_activation
  | "update_content" => caps.supports_update_content
  | "persistent" => caps.supports_persistent
  | "priority" => caps.supports_priority
  | "grouping" => caps.supports_grouping
  | "badges" => caps.supports_badges
  | "vibration" => caps.supports_vibration
  | _ => ((assocLookup caps.platform_features feature).getD false)

/-- The fixed `all_features` array of
`FeatureMatrix::from_capabilities` (src/src/components/platform.rs). -/
def allFeatures : List String :=
  ["actions", "rich_media", "markup", "sound", "scheduling", "progress",
   "categories", "replies", "custom_ui", "background_activation",
   "update_content", "persistent", "priority", "grouping", "badges",
   "vibration"]

/-- `FeatureMatrix` from src/src/components/platform.rs; the sets and maps
are embedded as lists. -/
structure FeatureMatrix where
  platform_features : List (Platform × List String)
  universal_features : List String
  partial_support : List (String × List Platform)
  best_platform_per_feature : List (String × Platform)
deriving DecidableEq, Repr

/-- The score used by `FeatureMatrix::from_capabilities` for
`best_platform_per_feature` (src/src/components/platform.rs, lines 473-489). -/
def featureScore (caps : PlatformCapabilities) (feature : String) : Nat :=
  let score := 0
  let score := if caps.supports_feature feature then score + 10 else score
  let score := if caps.supports_background_activation then score + 5 else score
  let score := if caps.supports_custom_ui then score + 3 else score
  if caps.rate_limits.isNone then score + 2 else score

/-- `max_by_key` over a list of entries (embedding of Rust's
`Iterator::max_by_key`, which returns the last maximal element; `HashMap`
iteration order is unspecified, and no claim depends on it). -/
def maxByKey {α : Type} (key : α → Nat) : List α → Option α
  | [] => none
  | x :: rest =>
      match maxByKey key rest with
      | none => some x
      | some y => if key y ≥ key x then some y else some x

/-- `FeatureMatrix::from_capabilities` from src/src/components/platform.rs
(lines 417-499), over an association-list capability map. -/
def FeatureMatrix.from_capabilities
    (capabilities : List (Platform × PlatformCapabilities)) : FeatureMatrix :=
  let platform_features := capabilities.map (fun pc =>
    (pc.1, allFeatures.filter (fun feature => pc.2.supports_feature feature)))
  let universal_features := allFeatures.filter (fun feature =>
    ((capabilities.filter (fun pc => pc.2.supports_feature feature)).length
      = capabilities.length : Bool))
  let partial_support := allFeatures.filterMap (fun feature =>
    let supported_platforms :=
      (capabilities.filter (fun pc => pc.2.supports_feature feature)).map
        Prod.fst
    if supported_platforms.length = capabilities.length then none
    else if supported_platforms.isEmpty then none
    else some (feature, supported_platforms))
  let best_platform_per_feature := allFeatures.filterMap (fun feature =>
    (maxByKey (fun pc : Platform × PlatformCapabilities =>
        featureScore pc.2 feature)
      (capabilities.filter (fun pc => pc.2.supports_feature feature))).map
      (fun pc => (feature, pc.1)))
  { platform_features := platform_features
    universal_features := universal_features
    partial_support := partial_support
    best_platform_per_feature := best_platform_per_feature }

/-- `FeatureMatrix::is_supported` from src/src/components/platform.rs
(lines 501-503): membership in `universal_features` or key presence in
`partial_support`. -/
def FeatureMatrix.is_supported (m : FeatureMatrix) (feature : String) : Bool :=
  m.universal_features.contains feature
    || m.partial_support.any (fun e => e.1 == feature)

/-- `AuthorizationState` from src/src/components/platform.rs;
`SystemTime` values are `Nat`. -/
inductive AuthorizationState
  | NotRequested
  | Requesting
  | Pending
  | Authorized (granted_at : Nat) (permissions : List PermissionLevel)
  | Denied (denied_at : Nat) (can_retry : Bool)
  | Revoked (revoked_at : Nat) (reason : String)
  | Provisional (granted_at : Nat) (expires_at : Option Nat)
deriving DecidableEq, Repr

/-- `AuthorizationState::is_authorized` from src/src/components/platform.rs
(lines 706-711): a `matches!` on `Authorized` and `Provisional` only. -/
def AuthorizationState.is_authorized : AuthorizationState → Bool
  | .Authorized _ _ => true
  | .Provisional _ _ => true
  | _ => false

/-- `AuthorizationState::can_request` from src/src/components/platform.rs
(lines 713-721). -/
def AuthorizationState.can_request : AuthorizationState → Bool
  | .NotRequested => true
  | .Denied _ can_retry => can_retry
  | .Revoked _ _ => true
  | .Pending => false
  | _ => false

/-- `AuthorizationState::is_expired` from src/src/components/platform.rs
(lines 723-733); `SystemTime::now()` is the explicit `now` argument. -/
def AuthorizationState.isExpired (s : AuthorizationState) (now : Nat) : Bool :=
  match s with
  | .Provisional _ (some expires) => decide (now > expires)
  | _ => false

/-- `ActionFallback` from src/src/components/platform.rs. -/
inductive ActionFallback
  | RemoveActions
  | SimplifyActions
  | ConvertToUrls
  | BatchIntoMenu
deriving DecidableEq, Repr

/-- `MediaFallback` from src/src/components/platform.rs. -/
inductive MediaFallback
  | RemoveMedia
  | SimplifyMedia
  | TextDescription
  | UsePlaceholder
deriving DecidableEq, Repr

/-- `MarkupFallback` from src/src/components/platform.rs. -/
inductive MarkupFallback
  | StripMarkup
  | ConvertMarkup
  | FormattingHints
deriving DecidableEq, Repr

/-- `DegradationStrategy` from src/src/components/platform.rs. -/
structure DegradationStrategy where
  action_fallback : ActionFallback
  media_fallback : MediaFallback
  markup_fallback : MarkupFallback
  feature_substitutions : List (String × String)
  fail_on_critical_unsupported : Bool
  critical_features : List String
deriving DecidableEq, Repr

/-- `DegradationStrategy::default` from src/src/components/platform.rs. -/
def DegradationStrategy.defaultStrategy : DegradationStrategy where
  action_fallback := .RemoveActions
  media_fallback := .TextDescription
  markup_fallback := .StripMarkup
  feature_substitutions := []
  fail_on_critical_unsupported := false
  critical_features := []

/-- `FeatureMatrix::default` (derived `Default`,
src/src/components/platform.rs). -/
def FeatureMatrix.defaultMatrix : FeatureMatrix where
  platform_features := []
  universal_features := []
  partial_support := []
  best_platform_per_feature := []

/-- `PlatformIntegration` from src/src/components/platform.rs.  The
`native_handles`, `platform_configs` and `user_preferences` fields are
never consulted by any claim's code path and are not carried. -/
structure PlatformIntegration where
  target_platforms : List Platform
  platform_capabilities : List (Platform × PlatformCapabilities)
  feature_matrix : FeatureMatrix
  degradation_strategy : DegradationStrategy
  authorization_states : List (Platform × AuthorizationState)
deriving DecidableEq, Repr

/-- `PlatformIntegration::new` from src/src/components/platform.rs. -/
def PlatformIntegration.new (target_platforms : List Platform) :
    PlatformIntegration where
  target_platforms := target_platforms
  platform_capabilities := []
  feature_matrix := FeatureMatrix.defaultMatrix
  degradation_strategy := DegradationStrategy.defaultStrategy
  authorization_states := []

/-- `Priority` from src/src/components/mod.rs. -/
inductive Priority
  | Low
  | Normal
  | High
  | Critical
  | Urgent
deriving DecidableEq, Repr

/-- `Priority::default` (`Self::Normal`) from src/src/components/mod.rs. -/
def Priority.defaultPriority : Priority := .Normal

/-- `NotificationCategory` from src/src/components/mod.rs. -/
structure NotificationCategory where
  identifier : String
  display_name : String
  hidden_preview_show_title : Bool
  hidden_preview_show_subtitle : Bool
deriving DecidableEq, Repr

/-- `ImageFormat` from src/src/components/content.rs. -/
inductive ImageFormat
  | Png
  | Jpeg
  | Gif
  | WebP
  | Svg
  | Ico
deriving DecidableEq, Repr

/-- `ImageFormat::is_supported` from src/src/components/content.rs
(lines 531-536). -/
def ImageFormat.is_supported : ImageFormat → Bool
  | .Png => true
  | .Jpeg => true
  | .Gif => true
  | .WebP => true
  | _ => false

/-- Embedding of a parsed `url::Url` (external crate): only the accessors
the sources call are carried. -/
structure UrlRepr where
  scheme : String
  path : String
  full : String
deriving DecidableEq, Repr

/-- `ImageData` from src/src/components/content.rs; byte buffers are
`List Nat`, paths are `String`. -/
inductive ImageData
  | File (path : String)
  | Url (url : UrlRepr)
  | Embedded (data : List Nat) (format : ImageFormat)
  | SystemIcon (name : String)
deriving DecidableEq, Repr

/-- External environment for the content layer: filesystem existence
checks and the out-of-scope rich-text conversion and sanitization
libraries (pulldown_cmark, ammonia; spec §1 lists them as external
collaborators). -/
structure ContentEnv where
  fileExists : String → Bool
  markdownToPlain : String → String
  htmlToPlain : String → String
  sanitizeHtmlFn : String → String

/-- `ImageData::validate` from src/src/components/content.rs
(lines 440-484).  The `format!`-interpolated part of the unsupported-format
message is not carried (no claim inspects it). -/
def ImageData.validate (env : ContentEnv) (data : ImageData)
    (_platform_limits : List (String × Nat)) :
    Except NotificationError Unit :=
  match data with
  | .File path =>
      if ¬ env.fileExists path then
        .error (.ResourceError "image_file" path "Image file does not exist")
      else .ok ()
  | .Url url =>
      if url.scheme = "file" ∧ ¬ env.fileExists url.path then
        .error (.ResourceError "image_url" url.full "Image file does not exist")
      else .ok ()
  | .Embedded bytes format =>
      if bytes.isEmpty then
        .error (.ValidationError "image_data" "Embedded image data cannot be empty")
      else if ¬ format.is_supported then
        .error (.ValidationError "image_format" "Unsupported image format")
      else .ok ()
  | .SystemIcon _ => .ok ()

/-- `ImageData::estimated_size` from src/src/components/content.rs;
`fileSize` supplies `path.metadata().len()` (filesystem read). -/
def ImageData.estimated_size (fileSize : String → Option Nat) :
    ImageData → Nat
  | .File path => (fileSize path).getD 0
  | .Url _ => 1024
  | .Embedded bytes _ => bytes.length
  | .SystemIcon _ => 64

/-- `ImagePlacement` from src/src/components/content.rs. -/
inductive ImagePlacement
  | AppIcon
  | Icon
  | Hero
  | Inline
  | Background
deriving DecidableEq, Repr

/-- `AudioSource` from src/src/components/content.rs (the `SystemSound`
payload is not consulted by any modeled path and is dropped). -/
inductive AudioSource
  | System
  | File (path : String)
  | Url (url : UrlRepr)
  | DefaultSound
  | Silent
deriving DecidableEq, Repr

/-- `AudioSource::validate` from src/src/components/content.rs. -/
def AudioSource.validate (env : ContentEnv) :
    AudioSource → Except NotificationError Unit
  | .File path =>
      if ¬ env.fileExists path then
        .error (.ResourceError "audio_file" path "Audio file does not exist")
      else .ok ()
  | .Url url =>
      if url.scheme = "file" ∧ ¬ env.fileExists url.path then
        .error (.ResourceError "audio_url" url.full "Audio file does not exist")
      else .ok ()
  | _ => .ok ()

/-- `VideoSource` from src/src/components/content.rs. -/
inductive VideoSource
  | File (path : String)
  | Url (url : UrlRepr)
  | Embedded (data : List Nat) (mime_type : String)
deriving DecidableEq, Repr

/-- `VideoSource::validate` from src/src/components/content.rs. -/
def VideoSource.validate (env : ContentEnv) :
    VideoSource → Except NotificationError Unit
  | .File path =>
      if ¬ env.fileExists path then
        .error (.ResourceError "video_file" path "Video file does not exist")
      else .ok ()
  | .Embedded bytes _ =>
      if bytes.isEmpty then
        .error (.ValidationError "video_data" "Embedded video data cannot be empty")
      else .ok ()
  | _ => .ok ()

/-- `VideoData` from src/src/components/content.rs (`VideoFormat` and the
loop flag are not consulted by `validate`). -/
structure VideoData where
  source : VideoSource
  loop_video : Bool
deriving DecidableEq, Repr

/-- `MediaAttachment` from src/src/components/content.rs; the `f32`
volume, duration and dimension metadata are not consulted by `validate`
and are not carried. -/
inductive MediaAttachment
  | Image (data : ImageData) (placement : ImagePlacement)
      (alt_text : Option String)
  | Audio (source : AudioSource) (loop_audio : Bool)
  | Video (data : VideoData) (auto_play : Bool)
  | File (path : String) (filename : Option String)
      (mime_type : Option String) (size_bytes : Option Nat)
deriving DecidableEq, Repr

/-- Abbreviated rendering of the `Display` impl for `NotificationError`
(src/src/components/mod.rs): only used where the sources interpolate an
error into another error's message, which no claim inspects. -/
def NotificationError.toMessage : NotificationError → String
  | .PlatformError p _ m => "Platform error on " ++ p ++ ": " ++ m
  | .ValidationError f m => "Validation error on " ++ f ++ ": " ++ m
  | .AuthorizationError p r => "Authorization error on " ++ p ++ ": " ++ r
  | .ResourceError t i m => "Resource error (" ++ t ++ " " ++ i ++ "): " ++ m
  | .TimeoutError o _ => "Timeout in " ++ o
  | .ResourceExhausted t _ _ => "Resource exhausted: " ++ t
  | .SanitizationError t m => "Sanitization error (" ++ t ++ "): " ++ m

/-- `MediaAttachment::validate` from src/src/components/content.rs
(lines 367-414). -/
def MediaAttachment.validate (env : ContentEnv)
    (fileSize : String → Option Nat) (m : MediaAttachment)
    (platform_limits : List (String × Nat)) :
    Except NotificationError Unit :=
  match m with
  | .Image data _ _ =>
      match data.validate env platform_limits with
      | .error e => .error e
      | .ok () =>
          match assocLookup platform_limits "max_image_size" with
          | some max_image_size =>
              if data.estimated_size fileSize > max_image_size then
                .error (.ValidationError "image_size"
                  "Image exceeds maximum size")
              else .ok ()
          | none => .ok ()
  | .Audio source _ => source.validate env
  | .Video data _ => data.source.validate env
  | .File path _ _ size_bytes =>
      if ¬ env.fileExists path then
        .error (.ResourceError "file" path "File does not exist")
      else
        match assocLookup platform_limits "max_file_size", size_bytes with
        | some max_file_size, some size =>
            if size > max_file_size then
              .error (.ValidationError "file_size" "File exceeds maximum size")
            else .ok ()
        | _, _ => .ok ()

/-- `RichText` from src/src/components/content.rs; the
`PlatformSpecific` map is an association list. -/
inductive RichText
  | Plain (text : String)
  | Markdown (text : String)
  | Html (text : String)
  | PlatformSpecific (map : List (String × String))
deriving DecidableEq, Repr

/-- `RichText::plain` from src/src/components/content.rs. -/
def RichText.plain (text : String) : RichText := .Plain text

/-- `RichText::to_plain_text` from src/src/components/content.rs
(lines 210-221); Markdown/HTML conversion is the out-of-scope library,
supplied by the environment.  `map.values().next()` (HashMap order
unspecified) is the first value of the association list. -/
def RichText.to_plain_text (env : ContentEnv) : RichText → String
  | .Plain text => text
  | .Markdown md => env.markdownToPlain md
  | .Html html => env.htmlToPlain html
  | .PlatformSpecific map =>
      match assocLookup map "plain" with
      | some s => s
      | none => ((map.head?.map Prod.snd).getD "")

/-- `RichText::validate` from src/src/components/content.rs
(lines 241-256); `str::len` is the UTF-8 byte size. -/
def RichText.validate (env : ContentEnv) (body : RichText)
    (platform_limits : List (String × Nat)) :
    Except NotificationError Unit :=
  let content := body.to_plain_text env
  match assocLookup platform_limits "max_body_length" with
  | some max_body_length =>
      if content.utf8ByteSize > max_body_length then
        .error (.ValidationError "body" "Body exceeds maximum length")
      else .ok ()
  | none => .ok ()

/-- `ActionId` from src/src/components/content.rs. -/
structure ActionId where
  id : String
deriving DecidableEq, Repr

/-- `ActivationType` from src/src/components/content.rs. -/
inductive ActivationType
  | Foreground
  | Background
  | Protocol
deriving DecidableEq, Repr

/-- `NotificationAction` from src/src/components/content.rs; the icon,
style, url, payload and confirmation fields are not consulted by
`validate` and are not carried. -/
structure NotificationAction where
  id : ActionId
  label : String
  activation_type : ActivationType
deriving DecidableEq, Repr

/-- `NotificationAction::validate` from src/src/components/content.rs
(lines 751-767); `str::len` is the UTF-8 byte size. -/
def NotificationAction.validate (a : NotificationAction) :
    Except NotificationError Unit :=
  if a.label = "" then
    .error (.ValidationError "label" "Action label cannot be empty")
  else if a.label.utf8ByteSize > 64 then
    .error (.ValidationError "label" "Action label too long (max 64 characters)")
  else .ok ()

/-- `InputId` from src/src/components/content.rs. -/
structure InputId where
  id : String
deriving DecidableEq, Repr

/-- `SelectionOption` from src/src/components/content.rs. -/
structure SelectionOption where
  value : String
  label : String
deriving DecidableEq, Repr

/-- `NotificationInput` from src/src/components/content.rs.  Only the
fields consulted by `validate` are carried; the `f64` bounds of `Number`
and the `chrono` dates of `Date` are floating-point/external values that
its `_ => {}` arm never reads. -/
inductive NotificationInput
  | Text (id : InputId) (label : String) (placeholder : String)
      (max_length : Option Nat) (multiline : Bool)
  | Selection (id : InputId) (label : String)
      (options : List SelectionOption) (multiple : Bool)
  | Number (id : InputId) (label : String)
  | Date (id : InputId) (label : String)
deriving DecidableEq, Repr

/-- `NotificationInput::validate` from src/src/components/content.rs
(lines 805-843). -/
def NotificationInput.validate (i : NotificationInput) :
    Except NotificationError Unit :=
  match i with
  | .Text _ label _ max_length _ =>
      if label = "" then
        .error (.ValidationError "label" "Input label cannot be empty")
      else
        match max_length with
        | some max_len =>
            if max_len = 0 then
              .error (.ValidationError "max_length"
                "Max length must be greater than 0")
            else .ok ()
        | none => .ok ()
  | .Selection _ label options _ =>
      if label = "" then
        .error (.ValidationError "label" "Input label cannot be empty")
      else if options.isEmpty then
        .error (.ValidationError "options"
          "Selection input must have at least one option")
      else .ok ()
  | _ => .ok ()

/-- `QuickReply` from src/src/components/content.rs. -/
structure QuickReply where
  id : ActionId
  text : String
  payload : Option String
deriving DecidableEq, Repr

/-- `ContextMenuAction` from src/src/components/content.rs. -/
structure ContextMenuAction where
  id : ActionId
  label : String
  separator_before : Bool
deriving DecidableEq, Repr

/-- `InteractionSet` from src/src/components/content.rs. -/
structure InteractionSet where
  actions : List NotificationAction
  inputs : List NotificationInput
  quick_replies : List QuickReply
  context_menu : List ContextMenuAction
deriving DecidableEq, Repr

/-- `InteractionSet::default` from src/src/components/content.rs. -/
def InteractionSet.defaultSet : InteractionSet where
  actions := []
  inputs := []
  quick_replies := []
  context_menu := []

/-- Sequential validation of a list of items, mirroring the indexed `for`
loops of `InteractionSet::validate` and `NotificationContent::validate`
(the interpolated index of the wrapping error's field is not needed by
any claim, so the field string is kept fixed). -/
def validateEach {α : Type} (field : String)
    (f : α → Except NotificationError Unit) :
    List α → Except NotificationError Unit
  | [] => .ok ()
  | x :: rest =>
      match f x with
      | .error e => .error (.ValidationError field e.toMessage)
      | .ok () => validateEach field f rest

/-- `InteractionSet::validate` from src/src/components/content.rs
(lines 683-718). -/
def InteractionSet.validate (s : InteractionSet)
    (platform_limits : List (String × Nat)) :
    Except NotificationError Unit :=
  let actionCheck : Except NotificationError Unit :=
    match assocLookup platform_limits "max_actions" with
    | some max_actions =>
        if s.actions.length > max_actions then
          .error (.ValidationError "actions" "Too many actions")
        else .ok ()
    | none => .ok ()
  match actionCheck with
  | .error e => .error e
  | .ok () =>
      match validateEach "actions" NotificationAction.validate s.actions with
      | .error e => .error e
      | .ok () => validateEach "inputs" NotificationInput.validate s.inputs

/-- `sanitize_string` from src/src/components/content.rs (line 1058):
remove `<`, `>`, `"` and the apostrophe character (codepoint 39). -/
def sanitize_string (input : String) : String :=
  String.mk (input.data.filter (fun c =>
    ¬ (c = '<' ∨ c = '>' ∨ c = '"' ∨ c = Char.ofNat 39)))

/-- `ValidationState` from src/src/components/content.rs. -/
inductive ValidationState
  | Pending
  | Valid
  | Invalid (msg : String)
deriving DecidableEq, Repr

/-- `AccessibilityMetadata` from src/src/components/content.rs. -/
structure AccessibilityMetadata where
  screen_reader_text : Option String
  high_contrast_mode : Bool
  large_text_mode : Bool
  reduce_motion : Bool
deriving DecidableEq, Repr

/-- `AccessibilityMetadata::default`. -/
def AccessibilityMetadata.defaultMeta : AccessibilityMetadata where
  screen_reader_text := none
  high_contrast_mode := false
  large_text_mode := false
  reduce_motion := false

/-- `NotificationContent` from src/src/components/content.rs (the
`localization` payload is external i18n data never consulted by any
modeled path and is abstracted to an `Option String` locale). -/
structure NotificationContent where
  title : String
  subtitle : Option String
  body : RichText
  media : List MediaAttachment
  interactions : InteractionSet
  category : Option NotificationCategory
  priority : Priority
  custom_data : List (String × String)
  localization : Option String
  accessibility : AccessibilityMetadata
  validation_state : ValidationState
deriving DecidableEq, Repr

/-- `NotificationContent::new` from src/src/components/content.rs
(lines 43-57). -/
def NotificationContent.new (title : String) (body : RichText) :
    NotificationContent where
  title := title
  subtitle := none
  body := body
  media := []
  interactions := InteractionSet.defaultSet
  category := none
  priority := Priority.defaultPriority
  custom_data := []
  localization := none
  accessibility := AccessibilityMetadata.defaultMeta
  validation_state := .Pending

/-- `NotificationContent::sanitize_content` from
src/src/components/content.rs (lines 146-158): HTML bodies go through
ammonia (which never fails), custom-data values through
`sanitize_string`. -/
def NotificationContent.sanitize_content (env : ContentEnv)
    (c : NotificationContent) : NotificationContent :=
  let body := match c.body with
    | .Html html => RichText.Html (env.sanitizeHtmlFn html)
    | other => other
  { c with body := body
           custom_data := c.custom_data.map (fun kv => (kv.1, sanitize_string kv.2)) }

/-- `NotificationContent::validate` from src/src/components/content.rs
(lines 101-143).  The Rust method mutates `&mut self`; here the updated
content is returned on success.  `str::len` is the UTF-8 byte size. -/
def NotificationContent.validate (env : ContentEnv)
    (fileSize : String → Option Nat) (c : NotificationContent)
    (platform_limits : List (String × Nat)) :
    Except NotificationError NotificationContent :=
  if c.title = "" then
    .error (.ValidationError "title" "Title cannot be empty")
  else
    let titleLenCheck : Except NotificationError Unit :=
      match assocLookup platform_limits "max_title_length" with
      | some max_title_length =>
          if c.title.utf8ByteSize > max_title_length then
            .error (.ValidationError "title" "Title exceeds maximum length")
          else .ok ()
      | none => .ok ()
    match titleLenCheck with
    | .error e => .error e
    | .ok () =>
        match c.body.validate env platform_limits with
        | .error e => .error e
        | .ok () =>
            match validateEach "media"
                (fun m => MediaAttachment.validate env fileSize m platform_limits)
                c.media with
            | .error e => .error e
            | .ok () =>
                match c.interactions.validate platform_limits with
                | .error e => .error e
                | .ok () =>
                    let c := c.sanitize_content env
                    .ok { c with validation_state := .Valid }

/-- `NotificationIdentity` from src/src/components/mod.rs:
`NotificationId` (a UUID) is a `Nat`, `CorrelationId`/`SessionId` are
`String`s, `created_at` is a `Nat` instant, `CreatorContext` is its
application-name string, `trace_span` is abstracted to its name. -/
structure NotificationIdentity where
  id : Nat
  correlation_id : String
  session_id : String
  created_at : Nat
  trace_span : Option String
  creator_context : String
deriving DecidableEq, Repr

/-- `Notification` from src/src/lib.rs.  The `analytics` component
(`NotificationAnalytics`) is `f64`-laden and is never read by any claim's
code path; it is not carried. -/
structure Notification where
  identity : NotificationIdentity
  content : NotificationContent
  platform_integration : PlatformIntegration
  lifecycle : NotificationLifecycle
deriving DecidableEq, Repr

/-- `NotificationBuildError` from src/src/lib.rs (lines 709-736). -/
inductive NotificationBuildError
  | MissingContent
  | MissingTitle
  | NoPlatforms
  | ValidationError (e : NotificationError)
  | TitleTooLong (platform : String) (length : Nat) (max : Nat)
  | BodyTooLong (platform : String) (length : Nat) (max : Nat)
deriving DecidableEq, Repr

/-- `NotificationBuilder` from src/src/lib.rs (the `analytics` slot is
dropped along with the analytics component). -/
structure NotificationBuilder where
  identity : Option NotificationIdentity
  content : Option NotificationContent
  platform_integration : Option PlatformIntegration
  lifecycle : Option NotificationLifecycle
deriving Repr

/-- `NotificationBuilder::new` from src/src/lib.rs. -/
def NotificationBuilder.newBuilder : NotificationBuilder where
  identity := none
  content := none
  platform_integration := none
  lifecycle := none

/-- `NotificationBuilder::with_title` from src/src/lib.rs (lines 758-766). -/
def NotificationBuilder.with_title (b : NotificationBuilder)
    (title : String) : NotificationBuilder :=
  match b.content with
  | some content => { b with content := some { content with title := title } }
  | none => { b with content := some (NotificationContent.new title (RichText.plain "")) }

/-- `NotificationBuilder::with_body` from src/src/lib.rs (lines 768-775). -/
def NotificationBuilder.with_body (b : NotificationBuilder)
    (body : RichText) : NotificationBuilder :=
  match b.content with
  | some content => { b with content := some { content with body := body } }
  | none => { b with content := some (NotificationContent.new "" body) }

/-- `NotificationBuilder::with_priority` from src/src/lib.rs
(lines 777-782): the priority is set only when content already exists. -/
def NotificationBuilder.with_priority (b : NotificationBuilder)
    (priority : Priority) : NotificationBuilder :=
  match b.content with
  | some content => { b with content := some { content with priority := priority } }
  | none => b

/-- `NotificationBuilder::with_platforms` from src/src/lib.rs. -/
def NotificationBuilder.with_platforms (b : NotificationBuilder)
    (platforms : List Platform) : NotificationBuilder :=
  { b with platform_integration := some (PlatformIntegration.new platforms) }

/-- `NotificationBuilder::with_subtitle` from src/src/lib.rs. -/
def NotificationBuilder.with_subtitle (b : NotificationBuilder)
    (subtitle : String) : NotificationBuilder :=
  match b.content with
  | some content => { b with content := some { content with subtitle := some subtitle } }
  | none =>
      let content := NotificationContent.new "" (RichText.plain "")
      { b with content := some { content with subtitle := some subtitle } }

/-- `NotificationBuilder::with_media` from src/src/lib.rs. -/
def NotificationBuilder.with_media (b : NotificationBuilder)
    (media : MediaAttachment) : NotificationBuilder :=
  match b.content with
  | some content =>
      { b with content := some { content with media := content.media ++ [media] } }
  | none =>
      let content := NotificationContent.new "" (RichText.plain "")
      { b with content := some { content with media := [media] } }

/-- Impure inputs of `NotificationBuilder::build` and
`NotificationManager::send`: freshly generated UUIDs and the clock. -/
structure BuildEnv where
  content : ContentEnv
  fileSize : String → Option Nat
  freshNotificationId : Nat
  freshCorrelationId : String
  freshSessionId : String
  now : Nat

/-- The per-platform validation loop of `NotificationBuilder::build`
(src/src/lib.rs lines 839-855): for each target platform compute its
limit map, check the title length, then run the content validator
(which mutates the content in place across iterations). -/
def validatePlatforms (env : BuildEnv) (content : NotificationContent) :
    List Platform → Except NotificationBuildError NotificationContent
  | [] => .ok content
  | platform :: rest =>
      let limits := platform.default_capabilities.get_limits
      let titleCheck : Except NotificationBuildError Unit :=
        match assocLookup limits "max_title_length" with
        | some max_title =>
            if content.title.utf8ByteSize > max_title then
              .error (.TitleTooLong platform.name content.title.utf8ByteSize
                max_title)
            else .ok ()
        | none => .ok ()
      match titleCheck with
      | .error e => .error e
      | .ok () =>
          match content.validate env.content env.fileSize limits with
          | .error e => .error (.ValidationError e)
          | .ok content => validatePlatforms env content rest

/-- `NotificationBuilder::build` from src/src/lib.rs (lines 818-873). -/
def NotificationBuilder.build (env : BuildEnv) (b : NotificationBuilder) :
    Except NotificationBuildError Notification :=
  match b.content with
  | none => .error .MissingContent
  | some content =>
      if content.title = "" then .error .MissingTitle
      else
        let platforms := match b.platform_integration with
          | some p => p.target_platforms
          | none => [.MacOS, .Windows, .Linux]
        if platforms.isEmpty then .error .NoPlatforms
        else
          match validatePlatforms env content platforms with
          | .error e => .error e
          | .ok content =>
              .ok { identity := b.identity.getD
                      { id := env.freshNotificationId
                        correlation_id := env.freshCorrelationId
                        session_id := env.freshSessionId
                        created_at := env.now
                        trace_span := none
                        creator_context := "native-notifications" }
                    content := content
                    platform_integration := b.platform_integration.getD
                      (PlatformIntegration.new platforms)
                    lifecycle := b.lifecycle.getD
                      (NotificationLifecycle.new env.now) }

/-- The stored record of src/src/lib.rs (the private `struct
NotificationState` that shadows the lifecycle enum's name in Rust);
analytics dropped as above. -/
structure StoredNotification where
  identity : NotificationIdentity
  content : NotificationContent
  lifecycle : NotificationLifecycle
  platform_integration : PlatformIntegration
deriving DecidableEq, Repr

/-- The `DashMap` store of `NotificationManager`, keyed by
notification id. -/
abbrev Store : Type := List (Nat × StoredNotification)

/-- `NotificationHandle` from src/src/lib.rs (the `Arc<DashMap>`
store reference is the ambient store, not carried in the value). -/
structure NotificationHandle where
  id : Nat
deriving DecidableEq, Repr

/-- `NotificationManager::send` from src/src/lib.rs (lines 137-168): run
`lifecycle.transition_to(Queued, QueuedByAttentionManager, ...)`,
propagating its error with `?` (in which case nothing is inserted), then
insert the record under `identity.id` and return a handle. -/
def NotificationManager.send (store : Store) (notification : Notification)
    (now : Nat) : Except NotificationError NotificationHandle × Store :=
  let result := notification.lifecycle.transition_to .Queued
    .QueuedByAttentionManager (some notification.identity.correlation_id) now
  match result.1 with
  | .error e => (.error e, store)
  | .ok () =>
      (.ok { id := notification.identity.id },
        assocInsert store notification.identity.id
          { identity := notification.identity
            content := notification.content
            lifecycle := result.2
            platform_integration := notification.platform_integration })

/-- `ResolvedImage` from src/src/backends/image_utils.rs. -/
structure ResolvedImage where
  path : String
  is_temp : Bool
  original_url : String
deriving DecidableEq, Repr

/-- Filesystem outcomes for the temp-file operations of
src/src/backends/image_utils.rs: `tempCreate` is the path produced by
`NamedTempFile::with_suffix` (`none` when creation fails; the chosen
suffix is appended by the model), `writeOk` is the `tokio::fs::write`
outcome, `persistOk` the `TempPath::keep` outcome. -/
structure FsEnv where
  tempCreate : Option String
  writeOk : Bool
  persistOk : Bool

/-- The extension match of the `ImageData::Embedded` arm of
`resolve_image_to_path` (src/src/backends/image_utils.rs lines 280-287). -/
def embeddedExtension : ImageFormat → String
  | .Png => "png"
  | .Jpeg => "jpg"
  | .Gif => "gif"
  | .WebP => "webp"
  | .Svg => "svg"
  | .Ico => "ico"

/-- The `ImageData::Embedded` arm of `resolve_image_to_path`
(src/src/backends/image_utils.rs lines 279-317): create a temp file with
an extension-derived suffix, write the bytes, persist the file and return
the resolved image.  Each filesystem failure maps to a
`ResourceError`; no validation of the bytes or format is performed. -/
def resolveEmbedded (fs : FsEnv) (_data : List Nat) (format : ImageFormat) :
    Except NotificationError (Option ResolvedImage) :=
  let extension := embeddedExtension format
  match fs.tempCreate with
  | none =>
      .error (.ResourceError "image" "embedded" "Failed to create temp file")
  | some base =>
      if ¬ fs.writeOk then
        .error (.ResourceError "image" "embedded" "Failed to write temp file")
      else if ¬ fs.persistOk then
        .error (.ResourceError "image" "embedded" "Failed to persist temp file")
      else
        .ok (some { path := base ++ "." ++ extension
                    is_temp := true
                    original_url := "embedded://data" })

/-! ### Delivery-worker model (src/src/lib.rs, `delivery_worker`)

Projection of a stored record to the data the worker's collect,
transition and commit phases read and write: the lifecycle state, the
per-platform delivery statuses and the target platforms.  The remaining
fields of `PlatformDeliveryState` (native id, attempt counts, latencies)
and of the record do not influence `can_transition_to` or the tracked
invariant.  The worker runs its four phases to completion on each tick
before the next tick starts (a single `tokio::select!` loop). -/

/-- Worker-relevant projection of a stored record. -/
structure DeliveryRecord where
  state : NotificationState
  platform_states : List (Platform × PlatformDeliveryStatus)
  targets : List Platform
deriving DecidableEq, Repr

/-- `let _ = ... transition_to(...)` in the worker: apply the transition
when the table permits it, silently keep the current state otherwise. -/
def tryTransition (s target : NotificationState) : NotificationState :=
  if s.can_transition_to target then target else s

/-- Status is `Delivered`. -/
def PlatformDeliveryStatus.isDelivered : PlatformDeliveryStatus → Bool
  | .Delivered => true
  | _ => false

/-- Status is `Failed(_)`. -/
def PlatformDeliveryStatus.isFailedStatus : PlatformDeliveryStatus → Bool
  | .Failed _ => true
  | _ => false

/-- One delivery job's fate in phase 3 of the worker (src/src/lib.rs
lines 477-536): an authorized job's backend call succeeds or fails, an
authorized job whose platform has no backend produces no result, an
unauthorized job is either denied (an `Unauthorized` result) or granted
(its frozen request is `None`, so no backend call and no result). -/
inductive DeliveryOutcome
  | success
  | failure (err : String)
  | authorizedNoBackend
  | deniedAuth
  | grantedAuth
deriving DecidableEq, Repr

/-- Whether the job this outcome belongs to had `is_authorized = true`
at collect time (drives the phase-2 `Delivering` transition). -/
def DeliveryOutcome.isAuthorizedJob : DeliveryOutcome → Bool
  | .success => true
  | .failure _ => true
  | .authorizedNoBackend => true
  | _ => false

/-- The platform status the commit phase writes for this outcome
(src/src/lib.rs lines 547-602), `none` when no result was buffered. -/
def DeliveryOutcome.commitStatus : DeliveryOutcome → Option PlatformDeliveryStatus
  | .success => some .Delivered
  | .failure err => some (.Failed err)
  | .deniedAuth => some (.Failed "Authorization required")
  | _ => none

/-- `all_delivered` of the commit phase (src/src/lib.rs lines 609-613). -/
def allDelivered (ps : List (Platform × PlatformDeliveryStatus))
    (targets : List Platform) : Bool :=
  targets.all (fun q => match assocLookup ps q with
    | some st => st.isDelivered
    | none => false)

/-- `any_failed` of the commit phase (src/src/lib.rs lines 615-619). -/
def anyFailed (ps : List (Platform × PlatformDeliveryStatus))
    (targets : List Platform) : Bool :=
  targets.any (fun q => match assocLookup ps q with
    | some st => st.isFailedStatus
    | none => false)

/-- The `platform_errors` map built by the commit phase
(src/src/lib.rs lines 630-640). -/
def platformErrors (ps : List (Platform × PlatformDeliveryStatus))
    (targets : List Platform) : List (Platform × String) :=
  targets.foldl (fun acc q => match assocLookup ps q with
    | some (.Failed msg) => assocInsert acc q msg
    | _ => acc) []

/-- One iteration of the commit loop (src/src/lib.rs lines 539-659):
write the platform state (`update_platform_state` is a map insert), then
transition to `Delivered` when all targets are delivered, else to
`Failed(details)` when some target failed and the collected error map is
non-empty.  The `message`, `retry_count` and `last_attempt` fields of the
`ErrorDetails` are scalar metadata that do not influence
`can_transition_to` or the tracked invariant; they are fixed here. -/
def commitOne (r : DeliveryRecord) (p : Platform)
    (status : PlatformDeliveryStatus) : DeliveryRecord :=
  let ps := assocInsert r.platform_states p status
  if allDelivered ps r.targets then
    { r with platform_states := ps, state := tryTransition r.state .Delivered }
  else if anyFailed ps r.targets then
    let errs := platformErrors ps r.targets
    if errs.isEmpty then { r with platform_states := ps }
    else
      { r with platform_states := ps
               state := tryTransition r.state (.Failed
                 { error_type := .PlatformError
                   message := "Delivery failed"
                   retry_count := 0
                   last_attempt := some 0
                   platform_errors := errs }) }
  else { r with platform_states := ps }

/-- Phase 1 of the worker: snapshot the `(id, platform)` jobs of a record
in `Queued` state whose platform is not yet `Delivered`
(src/src/lib.rs lines 417-459). -/
def collectJobs (r : DeliveryRecord) : List Platform :=
  if r.state = .Queued then
    r.targets.filter (fun p => match assocLookup r.platform_states p with
      | some st => ¬ st.isDelivered
      | none => true)
  else []

/-- One worker tick on one record: collect, transition, deliver, commit
(src/src/lib.rs lines 406-665).  `outs` assigns each collected job its
phase-3 fate, in job order.  Phase 2 attempts a `Delivering` transition
once per authorized job; since `tryTransition` to a fixed target is
idempotent, one conditional application is equivalent. -/
def deliveryTick (r : DeliveryRecord) (outs : List DeliveryOutcome) :
    DeliveryRecord :=
  let pairs := (collectJobs r).zip outs
  let r1 := if pairs.any (fun jo => jo.2.isAuthorizedJob) then
      { r with state := tryTransition r.state .Delivering }
    else r
  pairs.foldl (fun acc jo =>
    match jo.2.commitStatus with
    | some st => commitOne acc jo.1 st
    | none => acc) r1

/-- Record states reachable from a freshly `send`-inserted record
(`send` stores the lifecycle after its `Queued` transition, with the
empty `platform_states` of `NotificationLifecycle::new`) through worker
ticks. -/
inductive DeliveryReach : DeliveryRecord → Prop
  | init (targets : List Platform) :
      DeliveryReach { state := .Queued, platform_states := [], targets := targets }
  | step (r : DeliveryRecord) (outs : List DeliveryOutcome) :
      DeliveryReach r → DeliveryReach (deliveryTick r outs)

/-! ### Theorems -/

/-- Tags of the 14 lifecycle states, used to state the spec's transition
table independently of the `Failed` payload. -/
inductive StateTag
  | created
  | validating
  | platformRouting
  | queued
  | delivering
  | delivered
  | interactionPending
  | interactionReceived
  | processingResponse
  | updated
  | cancelled
  | expired
  | failed
  | completed
deriving DecidableEq, Repr

/-- The tag of a lifecycle state. -/
def stateTag : NotificationState → StateTag
  | .Created => .created
  | .Validating => .validating
  | .PlatformRouting => .platformRouting
  | .Queued => .queued
  | .Delivering => .delivering
  | .Delivered => .delivered
  | .InteractionPending => .interactionPending
  | .InteractionReceived => .interactionReceived
  | .ProcessingResponse => .processingResponse
  | .Updated => .updated
  | .Cancelled => .cancelled
  | .Expired => .expired
  | .Failed _ => .failed
  | .Completed => .completed

/-- The transition table as written in the spec (§4.5 of spec.md), one
pair per allowed `from → to` edge; Cancelled, Expired and Completed allow
none. -/
def specTransitionTable : List (StateTag × StateTag) :=
  [(.created, .validating), (.created, .cancelled),
   (.validating, .platformRouting), (.validating, .failed),
   (.validating, .cancelled),
   (.platformRouting, .queued), (.platformRouting, .delivering),
   (.platformRouting, .failed), (.platformRouting, .cancelled),
   (.queued, .delivering), (.queued, .expired), (.queued, .cancelled),
   (.delivering, .delivered), (.delivering, .failed),
   (.delivering, .expired), (.delivering, .cancelled),
   (.delivered, .interactionPending), (.delivered, .interactionReceived),
   (.delivered, .updated), (.delivered, .expired), (.delivered, .completed),
   (.interactionPending, .interactionReceived),
   (.interactionPending, .processingResponse), (.interactionPending, .expired),
   (.interactionReceived, .processingResponse),
   (.interactionReceived, .completed),
   (.processingResponse, .interactionPending),
   (.processingResponse, .completed), (.processingResponse, .failed),
   (.updated, .delivering), (.updated, .interactionPending),
   (.updated, .completed),
   (.failed, .validating), (.failed, .platformRouting),
   (.failed, .delivering), (.failed, .cancelled)]

/-- Whether the spec's table permits `s → t`. -/
def specAllows (s t : NotificationState) : Bool :=
  specTransitionTable.contains (stateTag s, stateTag t)

/-- The code's transition guard coincides with the spec's table. -/
theorem can_transition_to_eq_specAllows (s t : NotificationState) :
    s.can_transition_to t = specAllows s t := by
  cases s <;> cases t <;> rfl

/-- C3: `transition_to(to)` succeeds iff `(from, to)` is in the spec's
transition table; on failure the whole lifecycle value (state, history,
timing, metrics) is unchanged; on success the state becomes `to` and
exactly one history entry is appended, with `from_state` the previous
state, `to_state` the target, and the given reason/correlation id. -/
theorem c3_transition_table_correct (l : NotificationLifecycle)
    (target : NotificationState) (reason : TransitionReason)
    (cid : Option String) (now : Nat) :
    ((l.transition_to target reason cid now).1 = .ok () ↔
      specAllows l.state target = true)
    ∧ ((l.transition_to target reason cid now).1 ≠ .ok () →
        (l.transition_to target reason cid now).2 = l)
    ∧ ((l.transition_to target reason cid now).1 = .ok () →
        (l.transition_to target reason cid now).2.state = target
        ∧ (l.transition_to target reason cid now).2.state_history =
            l.state_history ++
              [{ from_state := some l.state, to_state := target
                 timestamp := now, reason := reason
                 correlation_id := cid }]) := by
  rw [← can_transition_to_eq_specAllows]
  by_cases h : l.state.can_transition_to target = true
  · simp [NotificationLifecycle.transition_to, h]
  · simp [NotificationLifecycle.transition_to, h]

/-- Witness for C3 at a concrete input: the fresh lifecycle accepts
`Created → Validating` and appends exactly that history entry. -/
theorem c3_transition_table_correct_witness :
    ((NotificationLifecycle.new 0).transition_to .Validating .Initial
        none 5).2.state = .Validating
    ∧ ((NotificationLifecycle.new 0).transition_to .Validating .Initial
        none 5).2.state_history =
        (NotificationLifecycle.new 0).state_history ++
          [{ from_state := some (NotificationLifecycle.new 0).state
             to_state := .Validating, timestamp := 5, reason := .Initial
             correlation_id := none }] :=
  (c3_transition_table_correct (NotificationLifecycle.new 0) .Validating
    .Initial none 5).2.2 (by rfl)

/-- C6 counterexample: a lifecycle in `Failed(_)` with attempts left and
a `HalfOpen` circuit breaker whose timeout has long elapsed.  The claim's
condition holds, yet `should_retry()` is `false` — the code retries only
when the breaker is strictly `Closed`. -/
theorem c6_halfopen_counterexample :
    ({ NotificationLifecycle.new 0 with
        state := .Failed { error_type := .PlatformError, message := "boom"
                           retry_count := 0, last_attempt := none
                           platform_errors := [] }
        retry_policy := { RetryPolicy.defaultPolicy with
            circuit_breaker_state := .HalfOpen
            circuit_breaker_opened_at := some 0 } }
      : NotificationLifecycle).should_retry = false
    ∧ ({ NotificationLifecycle.new 0 with
        state := .Failed { error_type := .PlatformError, message := "boom"
                           retry_count := 0, last_attempt := none
                           platform_errors := [] }
        retry_policy := { RetryPolicy.defaultPolicy with
            circuit_breaker_state := .HalfOpen
            circuit_breaker_opened_at := some 0 } }
      : NotificationLifecycle).state.is_failed = true
    ∧ RetryPolicy.defaultPolicy.current_attempt <
        RetryPolicy.defaultPolicy.max_attempts
    ∧ 1000000 - 0 ≥ RetryPolicy.defaultPolicy.circuit_breaker_timeout := by
  refine ⟨by rfl, by rfl, by decide, by decide⟩

/-- C6 (amended): `should_retry()` is true iff the state is `Failed(_)`,
attempts remain, and the circuit breaker is strictly `Closed` (an
`Open` or `HalfOpen` breaker suppresses the retry even after the breaker
timeout has elapsed). -/
theorem c6_should_retry_iff (l : NotificationLifecycle) :
    l.should_retry = true ↔
      (l.state.is_failed = true
       ∧ l.retry_policy.current_attempt < l.retry_policy.max_attempts
       ∧ l.retry_policy.circuit_breaker_state = .Closed) := by
  simp [NotificationLifecycle.should_retry, Bool.and_eq_true,
    decide_eq_true_iff, and_assoc]

/-- The amended claim's authorization predicate, written from its words:
the state is `Authorized` or `Provisional` (expiry is not consulted). -/
def isAuthorizedSpec (s : AuthorizationState) : Prop :=
  (∃ granted_at permissions, s = .Authorized granted_at permissions)
  ∨ (∃ granted_at expires_at, s = .Provisional granted_at expires_at)

/-- C8 counterexample: a `Provisional` authorization whose `expires_at`
has passed is expired, yet `is_authorized()` still returns `true` — the
code never consults expiry. -/
theorem c8_provisional_expired_counterexample :
    (AuthorizationState.Provisional 0 (some 5)).is_authorized = true
    ∧ (AuthorizationState.Provisional 0 (some 5)).isExpired 10 = true := by
  decide

/-- C8 (amended): `is_authorized()` is true iff the state is `Authorized`
or `Provisional` — regardless of expiry — and `can_request()` on any
`Authorized` value is false. -/
theorem c8_authorization :
    (∀ s : AuthorizationState, s.is_authorized = true ↔ isAuthorizedSpec s)
    ∧ (∀ granted_at permissions,
        (AuthorizationState.Authorized granted_at permissions).can_request
          = false) := by
  constructor
  · intro s
    cases s <;> simp [AuthorizationState.is_authorized, isAuthorizedSpec]
  · intro granted_at permissions
    rfl

/-- A concrete content environment for witnesses: no files exist and the
out-of-scope converters are the identity. -/
def exampleContentEnv : ContentEnv where
  fileExists := fun _ => false
  markdownToPlain := id
  htmlToPlain := id
  sanitizeHtmlFn := id

/-- A concrete build environment for witnesses. -/
def exampleEnv : BuildEnv where
  content := exampleContentEnv
  fileSize := fun _ => none
  freshNotificationId := 7
  freshCorrelationId := "corr-1"
  freshSessionId := "sess-1"
  now := 0

/-- A title of 500 `x` characters (500 UTF-8 bytes). -/
def titleX500 : String := String.mk (List.replicate 500 'x')

/-- A title of 256 `x` characters. -/
def titleX256 : String := String.mk (List.replicate 256 'x')

set_option maxRecDepth 40000 in
/-- C2 counterexample: the claim says a 500-character title builds
successfully for `[MacOS]`, but macOS's default capabilities cap titles
at 256, so the builder rejects it with `TitleTooLong{macOS, 500, 256}`. -/
theorem c2_macos_long_title_counterexample :
    ((((NotificationBuilder.newBuilder.with_title titleX500).with_body
        (RichText.plain "x")).with_platforms [.MacOS]).build exampleEnv)
      = .error (.TitleTooLong "macOS" 500 256) := by
  rfl

set_option maxRecDepth 40000 in
/-- C2 (amended): the 500-character title is rejected for `[Windows]`
with `TitleTooLong{Windows, 500, 128}` and for `[MacOS]` with
`TitleTooLong{macOS, 500, 256}`; a 256-character title builds
successfully for `[MacOS]`. -/
theorem c2_title_limits :
    (((((NotificationBuilder.newBuilder.with_title titleX500).with_body
        (RichText.plain "x")).with_platforms [.Windows]).build exampleEnv)
      = .error (.TitleTooLong "Windows" 500 128))
    ∧ (((((NotificationBuilder.newBuilder.with_title titleX500).with_body
        (RichText.plain "x")).with_platforms [.MacOS]).build exampleEnv)
      = .error (.TitleTooLong "macOS" 500 256))
    ∧ (∃ n, ((((NotificationBuilder.newBuilder.with_title titleX256).with_body
        (RichText.plain "x")).with_platforms [.MacOS]).build exampleEnv)
      = .ok n) := by
  refine ⟨by rfl, by rfl, ⟨_, by rfl⟩⟩

/-- A filesystem environment in which the temp-file operations succeed. -/
def fsOk : FsEnv where
  tempCreate := some "/tmp/img"
  writeOk := true
  persistOk := true

/-- C7 counterexample: `resolve_image_to_path` on
`Embedded{data: [], format: Svg}` — empty bytes AND an unsupported
format — does not fail with a `ValidationError`; it writes the temp file
and returns the resolved image. -/
theorem c7_resolve_embedded_counterexample :
    resolveEmbedded fsOk [] .Svg =
      .ok (some { path := "/tmp/img.svg", is_temp := true
                  original_url := "embedded://data" }) := by
  rfl

/-- C7 (amended): the `Embedded` arm of `resolve_image_to_path` performs
no validation — when the temp-file operations succeed it returns
`Some(ResolvedImage)` with the format-derived extension, `is_temp =
true` and `original_url = "embedded://data"` for every byte buffer and
format, and it never produces a `ValidationError`; the emptiness and
format checks of the claim live in `ImageData::validate`, which accepts
exactly the non-empty buffers with formats in {Png, Jpeg, Gif, WebP}. -/
theorem c7_resolve_embedded (fs : FsEnv) (data : List Nat)
    (format : ImageFormat) :
    (∀ base, fs.tempCreate = some base → fs.writeOk = true →
      fs.persistOk = true →
      resolveEmbedded fs data format =
        .ok (some { path := base ++ "." ++ embeddedExtension format
                    is_temp := true, original_url := "embedded://data" }))
    ∧ (∀ f m, resolveEmbedded fs data format ≠ .error (.ValidationError f m))
    ∧ (∀ env limits,
        ImageData.validate env (.Embedded data format) limits = .ok () ↔
          (data ≠ [] ∧ format.is_supported = true)) := by
  refine ⟨?_, ?_, ?_⟩
  · intro base hb hw hp
    simp [resolveEmbedded, hb, hw, hp]
  · intro f m
    unfold resolveEmbedded
    cases h : fs.tempCreate with
    | none => simp
    | some base =>
        by_cases hw : fs.writeOk = true <;>
          by_cases hp : fs.persistOk = true <;> simp [hw, hp]
  · intro env limits
    simp only [ImageData.validate, List.isEmpty_iff]
    split_ifs with h1 h2 <;> simp_all

/-- C7 witness: at a concrete non-empty PNG buffer the resolution
succeeds with the `.png` suffix, and `ImageData::validate` accepts it. -/
theorem c7_resolve_embedded_witness :
    resolveEmbedded fsOk [3] .Png =
      .ok (some { path := "/tmp/img.png", is_temp := true
                  original_url := "embedded://data" })
    ∧ (ImageData.validate exampleContentEnv (.Embedded [3] .Png) [] = .ok () ↔
        (([3] : List Nat) ≠ [] ∧ ImageFormat.Png.is_supported = true)) :=
  ⟨(c7_resolve_embedded fsOk [3] .Png).1 "/tmp/img" rfl rfl rfl,
   (c7_resolve_embedded fsOk [3] .Png).2.2 exampleContentEnv []⟩

/-- C9 counterexample: on the empty capability map, every fixed feature
becomes "universal" (`0 == 0` platforms support it), so `is_supported`
returns `true` although no platform exists at all. -/
theorem c9_empty_map_counterexample :
    (FeatureMatrix.from_capabilities []).is_supported "actions" = true
    ∧ (([] : List (Platform × PlatformCapabilities)).any
        (fun pc => pc.2.supports_feature "actions")) = false := by
  exact ⟨by rfl, by rfl⟩

/-- C1: `NotificationManager::send` on any notification whose lifecycle
state is `Created` (every builder-produced notification) returns an
error — the direct `Created → Queued` transition it attempts is rejected
by the transition table — and inserts nothing into the store. -/
theorem c1_send_created_fails (store : Store) (n : Notification) (now : Nat)
    (h : n.lifecycle.state = .Created) :
    (NotificationManager.send store n now).1 =
      .error (.ValidationError "state_transition" "Invalid transition")
    ∧ (NotificationManager.send store n now).2 = store := by
  have hcan : n.lifecycle.state.can_transition_to .Queued = false := by
    rw [h]; rfl
  constructor
  · simp [NotificationManager.send, NotificationLifecycle.transition_to, hcan]
  · simp [NotificationManager.send, NotificationLifecycle.transition_to, hcan]

/-- A syntactically complete notification used only as `Option.getD`
fallback below. -/
def fallbackNotification : Notification where
  identity := { id := 0, correlation_id := "", session_id := ""
                created_at := 0, trace_span := none, creator_context := "" }
  content := NotificationContent.new "t" (RichText.plain "")
  platform_integration := PlatformIntegration.new [.Linux]
  lifecycle := NotificationLifecycle.new 0

/-- The notification built by
`NotificationBuilder::new().with_title("Hello").with_body(Plain("World"))
.with_platforms([Linux]).build()`. -/
def exampleNotification : Notification :=
  (((((NotificationBuilder.newBuilder.with_title "Hello").with_body
      (RichText.plain "World")).with_platforms [.Linux]).build
    exampleEnv).toOption).getD fallbackNotification

/-- C1 witness: the concrete builder output is in `Created` state, and
`send` on it fails and leaves the store empty. -/
theorem c1_send_created_fails_witness :
    (((((NotificationBuilder.newBuilder.with_title "Hello").with_body
        (RichText.plain "World")).with_platforms [.Linux]).build exampleEnv)
      = .ok exampleNotification)
    ∧ exampleNotification.lifecycle.state = .Created
    ∧ (NotificationManager.send ([] : Store) exampleNotification 5).1
        = .error (.ValidationError "state_transition" "Invalid transition")
    ∧ (NotificationManager.send ([] : Store) exampleNotification 5).2
        = ([] : Store) := by
  refine ⟨by rfl, by rfl, ?_, ?_⟩
  · exact (c1_send_created_fails ([] : Store) exampleNotification 5 (by rfl)).1
  · exact (c1_send_created_fails ([] : Store) exampleNotification 5 (by rfl)).2

/-- `NotificationContent::validate` never changes the priority. -/
theorem validate_preserves_priority (env : ContentEnv)
    (fileSize : String → Option Nat) (c : NotificationContent)
    (limits : List (String × Nat)) (c' : NotificationContent)
    (h : NotificationContent.validate env fileSize c limits = .ok c') :
    c'.priority = c.priority := by
  simp only [NotificationContent.validate] at h
  repeat' split at h
  all_goals simp_all [NotificationContent.sanitize_content]
  all_goals rw [← h]

/-- The per-platform validation loop never changes the priority. -/
theorem validatePlatforms_preserves_priority (env : BuildEnv) :
    ∀ (platforms : List Platform) (c c' : NotificationContent),
      validatePlatforms env c platforms = .ok c' → c'.priority = c.priority := by
  intro platforms
  induction platforms with
  | nil =>
      intro c c' h
      simp only [validatePlatforms] at h
      cases h
      rfl
  | cons p rest ih =>
      intro c c' h
      simp only [validatePlatforms] at h
      split at h
      · exact absurd h (by simp)
      · cases hv : NotificationContent.validate env.content env.fileSize c
            p.default_capabilities.get_limits with
        | error e => rw [hv] at h; exact absurd h (by simp)
        | ok c'' =>
            rw [hv] at h
            simp only at h
            rw [ih c'' c' h]
            exact validate_preserves_priority _ _ _ _ _ hv

/-- C10: calling `with_priority` before any content-setting method
silently discards the priority — `with_priority` only assigns when
content already exists — so
`new().with_priority(p).with_title(t).build()` yields content with the
default priority `Normal` for every `p`. -/
theorem c10_priority_before_content_discarded (p : Priority) (t : String)
    (env : BuildEnv) (n : Notification)
    (h : (((NotificationBuilder.newBuilder.with_priority p).with_title t).build
        env) = .ok n) :
    n.content.priority = .Normal := by
  have hb : NotificationBuilder.newBuilder.with_priority p =
      NotificationBuilder.newBuilder := rfl
  rw [hb] at h
  simp only [NotificationBuilder.build, NotificationBuilder.with_title,
    NotificationBuilder.newBuilder] at h
  split at h
  · exact absurd h (by simp)
  · split at h
    · exact absurd h (by simp)
    · cases hv : validatePlatforms env (NotificationContent.new t
          (RichText.plain "")) [.MacOS, .Windows, .Linux] with
      | error e => rw [hv] at h; exact absurd h (by simp)
      | ok c' =>
          rw [hv] at h
          simp only [Except.ok.injEq] at h
          have hn : n.content = c' := by rw [← h]
          rw [hn, validatePlatforms_preserves_priority env _ _ _ hv]
          rfl

/-- The notification built by
`new().with_priority(High).with_title("Hello")`. -/
def c10exampleNotification : Notification :=
  ((((NotificationBuilder.newBuilder.with_priority .High).with_title
      "Hello").build exampleEnv).toOption).getD fallbackNotification

/-- C10 witness: at `p = High`, `t = "Hello"` the build succeeds and the
resulting priority is `Normal`, not `High`. -/
theorem c10_priority_before_content_discarded_witness :
    ((((NotificationBuilder.newBuilder.with_priority .High).with_title
        "Hello").build exampleEnv) = .ok c10exampleNotification)
    ∧ c10exampleNotification.content.priority = .Normal := by
  refine ⟨by rfl, ?_⟩
  exact c10_priority_before_content_discarded .High "Hello" exampleEnv
    c10exampleNotification (by rfl)

/-- The lifecycle value after a `transition_to` call under Rust's
`&mut self` semantics: updated on success, unchanged on failure. -/
def applyTransition (l : NotificationLifecycle) (s : NotificationState)
    (reason : TransitionReason) (cid : Option String) (now : Nat) :
    NotificationLifecycle :=
  (l.transition_to s reason cid now).2

/-- Lifecycle values reachable from `NotificationLifecycle::new` by any
sequence of `transition_to` calls (accepted or rejected). -/
inductive LifecycleReach : NotificationLifecycle → Prop
  | new (now : Nat) : LifecycleReach (NotificationLifecycle.new now)
  | step (l : NotificationLifecycle) (s : NotificationState)
      (reason : TransitionReason) (cid : Option String) (now : Nat) :
      LifecycleReach l → LifecycleReach (applyTransition l s reason cid now)

/-- One requested transition: target, reason, correlation id, clock. -/
structure TransitionStep where
  target : NotificationState
  reason : TransitionReason
  cid : Option String
  now : Nat

/-- Apply a list of transition requests in order. -/
def applyTransitionList (l : NotificationLifecycle) :
    List TransitionStep → NotificationLifecycle
  | [] => l
  | st :: rest =>
      applyTransitionList (applyTransition l st.target st.reason st.cid st.now)
        rest

/-- Reachability is preserved by applying a request list. -/
theorem reach_applyTransitionList (steps : List TransitionStep) :
    ∀ l, LifecycleReach l → LifecycleReach (applyTransitionList l steps) := by
  induction steps with
  | nil => intro l h; exact h
  | cons st rest ih =>
      intro l h
      exact ih _ (LifecycleReach.step l st.target st.reason st.cid st.now h)

/-- A `transition_to` call only ever appends to the history. -/
theorem applyTransition_history_append (l : NotificationLifecycle)
    (s : NotificationState) (reason : TransitionReason) (cid : Option String)
    (now : Nat) :
    ∃ tail, (applyTransition l s reason cid now).state_history
      = l.state_history ++ tail := by
  unfold applyTransition NotificationLifecycle.transition_to
  by_cases h : l.state.can_transition_to s = true
  · refine ⟨[{ from_state := some l.state, to_state := s, timestamp := now
               reason := reason, correlation_id := cid }], ?_⟩
    simp [h]
  · refine ⟨[], ?_⟩
    simp [h]

/-- Details payload used by the C5 counterexample trace. -/
def errD : ErrorDetails where
  error_type := .PlatformError
  message := "boom"
  retry_count := 0
  last_attempt := none
  platform_errors := []

/-- 102 accepted transitions: `Created → Validating → Failed`, then 100
alternating `Delivering`/`Failed` steps through the retry cycle of the
transition table. -/
def c5steps : List TransitionStep :=
  { target := .Validating, reason := .Initial, cid := none, now := 1 } ::
  (List.range 101).map (fun i =>
    { target := if i % 2 = 0 then .Failed errD else .Delivering
      reason := .Retry, cid := none, now := i + 2 })

/-- The lifecycle at the end of the C5 trace. -/
def c5trace : NotificationLifecycle :=
  applyTransitionList (NotificationLifecycle.new 0) c5steps

set_option maxRecDepth 100000 in
/-- C5 counterexample: a reachable lifecycle whose state history has 103
entries — `transition_to` never truncates the history, so the claimed
100-entry bound does not hold. -/
theorem c5_history_bound_counterexample :
    LifecycleReach c5trace ∧ c5trace.state_history.length = 103 :=
  ⟨reach_applyTransitionList c5steps _ (LifecycleReach.new 0), by decide⟩

/-- C5 (amended): for every reachable lifecycle value the history starts
with the `None → Created` entry recorded at creation, and every
`transition_to` call only appends to the history (which is unbounded:
the code enforces no 100-entry cap). -/
theorem c5_history_append_only :
    (∀ l, LifecycleReach l → ∃ t0, l.state_history.head? =
      some { from_state := none, to_state := .Created, timestamp := t0
             reason := .Initial, correlation_id := none })
    ∧ (∀ (l : NotificationLifecycle) (s : NotificationState)
        (reason : TransitionReason) (cid : Option String) (now : Nat),
        ∃ tail, (applyTransition l s reason cid now).state_history
          = l.state_history ++ tail) := by
  constructor
  · intro l h
    induction h with
    | new now => exact ⟨now, rfl⟩
    | step l s reason cid now hl ih =>
        obtain ⟨t0, hh⟩ := ih
        obtain ⟨tail, ht⟩ := applyTransition_history_append l s reason cid now
        refine ⟨t0, ?_⟩
        rw [ht]
        cases hl' : l.state_history with
        | nil => rw [hl'] at hh; simp at hh
        | cons a as =>
            rw [hl'] at hh
            simpa using hh
  · exact applyTransition_history_append

/-- C5 witness: the fresh lifecycle's first entry, and the appended tail
of a concrete transition. -/
theorem c5_history_append_only_witness :
    (∃ t0, (NotificationLifecycle.new 0).state_history.head? =
      some { from_state := none, to_state := .Created, timestamp := t0
             reason := .Initial, correlation_id := none })
    ∧ (∃ tail,
        (applyTransition (NotificationLifecycle.new 0) .Validating .Initial
          none 1).state_history
          = (NotificationLifecycle.new 0).state_history ++ tail) :=
  ⟨c5_history_append_only.1 _ (LifecycleReach.new 0),
   c5_history_append_only.2 (NotificationLifecycle.new 0) .Validating .Initial
     none 1⟩

/-- C9 (amended): for every non-empty capability map and every feature
name in the fixed 16-feature set, `from_capabilities(M).is_supported(f)`
holds iff some platform of the map supports it.  (The empty map makes
every fixed feature "universal", and feature names outside the fixed set
are never entered into the matrix even when a platform's
`platform_features` supports them.) -/
theorem c9_feature_matrix_supported
    (caps : List (Platform × PlatformCapabilities)) (f : String)
    (hne : caps ≠ []) (hf : f ∈ allFeatures) :
    (FeatureMatrix.from_capabilities caps).is_supported f = true ↔
      ∃ pc ∈ caps, pc.2.supports_feature f = true := by
  have hmem : (∃ pc ∈ caps, pc.2.supports_feature f = true) ↔
      caps.filter (fun pc => pc.2.supports_feature f) ≠ [] := by
    constructor
    · rintro ⟨pc, hpc, hsup⟩ hnil
      have hin : pc ∈ caps.filter (fun pc => pc.2.supports_feature f) :=
        List.mem_filter.mpr ⟨hpc, by simp [hsup]⟩
      rw [hnil] at hin
      exact absurd hin (List.not_mem_nil pc)
    · intro hnil
      obtain ⟨pc, hpc⟩ := List.exists_mem_of_ne_nil _ hnil
      obtain ⟨h1, h2⟩ := List.mem_filter.mp hpc
      exact ⟨pc, h1, h2⟩
  rw [hmem]
  simp only [FeatureMatrix.is_supported, FeatureMatrix.from_capabilities,
    Bool.or_eq_true, List.elem_iff, List.any_eq_true]
  constructor
  · rintro (hu | ⟨e, he, hef⟩)
    · obtain ⟨-, hlen⟩ := List.mem_filter.mp hu
      intro hnil
      rw [hnil] at hlen
      simp at hlen
      exact hne (List.eq_nil_of_length_eq_zero hlen.symm)
    · obtain ⟨g, -, hg⟩ := List.mem_filterMap.mp he
      by_cases hlen : ((caps.filter
          (fun pc => pc.2.supports_feature g)).map Prod.fst).length
          = caps.length
      · rw [if_pos hlen] at hg
        exact absurd hg (by simp)
      · rw [if_neg hlen] at hg
        by_cases hemp : ((caps.filter
            (fun pc => pc.2.supports_feature g)).map Prod.fst).isEmpty
        · rw [if_pos hemp] at hg
          exact absurd hg (by simp)
        · rw [if_neg hemp] at hg
          simp only [Option.some.injEq] at hg
          have hgf : g = f := by
            rw [← hg] at hef
            simpa using hef
          intro hnil
          rw [hgf, hnil] at hemp
          simp at hemp
  · intro hnil
    by_cases hlen : (caps.filter
        (fun pc => pc.2.supports_feature f)).length = caps.length
    · left
      exact List.mem_filter.mpr ⟨hf, by simp [hlen]⟩
    · right
      refine ⟨(f, (caps.filter (fun pc => pc.2.supports_feature f)).map
        Prod.fst), ?_, by simp⟩
      refine List.mem_filterMap.mpr ⟨f, hf, ?_⟩
      rw [if_neg (by simpa using hlen), if_neg (by simpa using hnil)]

/-- C9 witness: the singleton macOS map supports "actions". -/
theorem c9_feature_matrix_supported_witness :
    (FeatureMatrix.from_capabilities
      [(.MacOS, Platform.MacOS.default_capabilities)]).is_supported "actions"
      = true :=
  (c9_feature_matrix_supported
    [(.MacOS, Platform.MacOS.default_capabilities)] "actions"
    (by decide) (by decide)).mpr
    ⟨(.MacOS, Platform.MacOS.default_capabilities), by decide, by decide⟩

/-- Looking up the freshly inserted key returns the inserted value. -/
theorem assocLookup_insert_self {α β : Type} [DecidableEq α]
    (l : List (α × β)) (k : α) (v : β) :
    assocLookup (assocInsert l k v) k = some v := by
  induction l with
  | nil => simp [assocInsert, assocLookup]
  | cons kv rest ih =>
      obtain ⟨a, b⟩ := kv
      by_cases h : a = k
      · simp [assocInsert, assocLookup, h]
      · simp [assocInsert, assocLookup, h, ih]

/-- Inserting one key leaves lookups of other keys unchanged. -/
theorem assocLookup_insert_ne {α β : Type} [DecidableEq α]
    (l : List (α × β)) (k : α) (v : β) (k' : α) (h : k ≠ k') :
    assocLookup (assocInsert l k v) k' = assocLookup l k' := by
  induction l with
  | nil => simp [assocInsert, assocLookup, h]
  | cons kv rest ih =>
      obtain ⟨a, b⟩ := kv
      by_cases ha : a = k
      · subst ha
        simp [assocInsert, assocLookup, h]
      · by_cases ha' : a = k'
        · subst ha'
          simp [assocInsert, assocLookup, ha]
        · simp [assocInsert, assocLookup, ha, ha', ih]

/-- `allDelivered` in predicate form. -/
theorem allDelivered_iff (ps : List (Platform × PlatformDeliveryStatus))
    (targets : List Platform) :
    allDelivered ps targets = true ↔
      ∀ p ∈ targets, ∃ st, assocLookup ps p = some st
        ∧ st.isDelivered = true := by
  simp only [allDelivered, List.all_eq_true]
  constructor
  · intro h p hp
    have hq := h p hp
    cases hl : assocLookup ps p with
    | none => rw [hl] at hq; simp at hq
    | some st => rw [hl] at hq; exact ⟨st, rfl, hq⟩
  · intro h p hp
    obtain ⟨st, hl, hd⟩ := h p hp
    rw [hl]
    exact hd

/-- The C4 invariant: `Delivered` only with every target delivered, and
every `Failed` payload carries a non-empty platform-error map. -/
def c4Inv (r : DeliveryRecord) : Prop :=
  (r.state = .Delivered → allDelivered r.platform_states r.targets = true)
  ∧ (∀ e, r.state = .Failed e → e.platform_errors ≠ [])

/-- `commitOne` never changes the targets. -/
theorem commitOne_targets (r : DeliveryRecord) (p : Platform)
    (st : PlatformDeliveryStatus) : (commitOne r p st).targets = r.targets := by
  simp only [commitOne]
  split_ifs <;> rfl

/-- `commitOne` writes exactly the insert of the committed status. -/
theorem commitOne_ps (r : DeliveryRecord) (p : Platform)
    (st : PlatformDeliveryStatus) :
    (commitOne r p st).platform_states = assocInsert r.platform_states p st := by
  simp only [commitOne]
  split_ifs <;> rfl

/-- One commit step preserves the C4 invariant, provided the committed
platform is a target that is not already `Delivered`. -/
theorem commitOne_inv (acc : DeliveryRecord) (p : Platform)
    (st : PlatformDeliveryStatus) (hmem : p ∈ acc.targets)
    (hpend : ∀ st', assocLookup acc.platform_states p = some st' →
      st'.isDelivered = false)
    (hinv : c4Inv acc) : c4Inv (commitOne acc p st) := by
  have hnotDel : acc.state ≠ .Delivered := by
    intro hD
    obtain ⟨st', hl, hdel⟩ := (allDelivered_iff _ _).mp (hinv.1 hD) p hmem
    rw [hpend st' hl] at hdel
    exact absurd hdel (by simp)
  simp only [commitOne]
  split_ifs with h1 h2 h3
  · refine ⟨fun _ => h1, ?_⟩
    intro e he
    simp only at he
    unfold tryTransition at he
    split at he
    · exact absurd he (by simp)
    · exact hinv.2 e he
  · exact ⟨fun hD => absurd hD hnotDel, fun e he => hinv.2 e he⟩
  · refine ⟨?_, ?_⟩
    · intro hD
      simp only at hD
      unfold tryTransition at hD
      split at hD
      · exact absurd hD (by simp)
      · exact absurd hD hnotDel
    · intro e he
      simp only at he
      unfold tryTransition at he
      split at he
      · cases he
        simpa using h3
      · exact hinv.2 e he
  · exact ⟨fun hD => absurd hD hnotDel, fun e he => hinv.2 e he⟩

/-- The first components of a zip form a sublist of the left list. -/
theorem zip_map_fst_sublist {α β : Type} :
    ∀ (l1 : List α) (l2 : List β),
      ((l1.zip l2).map Prod.fst).Sublist l1 := by
  intro l1
  induction l1 with
  | nil => intro l2; simp
  | cons a as ih =>
      intro l2
      cases l2 with
      | nil => simp
      | cons b bs => simpa using (ih bs).cons₂ a

/-- The commit fold of one tick preserves the C4 invariant when the
pending jobs are pairwise-distinct target platforms, none of which is
already `Delivered`. -/
theorem commit_fold_inv :
    ∀ (pairs : List (Platform × DeliveryOutcome)) (acc : DeliveryRecord),
      (pairs.map Prod.fst).Nodup →
      (∀ jo ∈ pairs, jo.1 ∈ acc.targets) →
      (∀ jo ∈ pairs, ∀ st, assocLookup acc.platform_states jo.1 = some st →
        st.isDelivered = false) →
      c4Inv acc →
      c4Inv (pairs.foldl (fun acc jo =>
        match jo.2.commitStatus with
        | some st => commitOne acc jo.1 st
        | none => acc) acc) := by
  intro pairs
  induction pairs with
  | nil => intro acc _ _ _ hinv; exact hinv
  | cons jo rest ih =>
      intro acc hnd hmem hpend hinv
      rw [List.map_cons, List.nodup_cons] at hnd
      have hndTail : (rest.map Prod.fst).Nodup := hnd.2
      have hheadNotin : jo.1 ∉ rest.map Prod.fst := hnd.1
      simp only [List.foldl_cons]
      cases hcs : jo.2.commitStatus with
      | none =>
          simp only [hcs]
          exact ih acc hndTail
            (fun jo' h' => hmem jo' (List.mem_cons_of_mem _ h'))
            (fun jo' h' => hpend jo' (List.mem_cons_of_mem _ h'))
            hinv
      | some st =>
          simp only [hcs]
          refine ih (commitOne acc jo.1 st) hndTail ?_ ?_ ?_
          · intro jo' h'
            rw [commitOne_targets]
            exact hmem jo' (List.mem_cons_of_mem _ h')
          · intro jo' h' st' hl
            have hne : jo.1 ≠ jo'.1 := by
              intro hEq
              exact hheadNotin (hEq ▸ List.mem_map_of_mem Prod.fst h')
            rw [commitOne_ps, assocLookup_insert_ne _ _ _ _ hne] at hl
            exact hpend jo' (List.mem_cons_of_mem _ h') st' hl
          · exact commitOne_inv acc jo.1 st (hmem jo (List.mem_cons_self _ _))
              (hpend jo (List.mem_cons_self _ _)) hinv

/-- Every collected job is a target platform. -/
theorem collectJobs_subset (r : DeliveryRecord) :
    ∀ p ∈ collectJobs r, p ∈ r.targets := by
  intro p hp
  unfold collectJobs at hp
  split at hp
  · exact (List.mem_filter.mp hp).1
  · exact absurd hp (List.not_mem_nil p)

/-- Collected jobs are pairwise distinct when targets are. -/
theorem collectJobs_nodup (r : DeliveryRecord) (h : r.targets.Nodup) :
    (collectJobs r).Nodup := by
  unfold collectJobs
  split
  · exact h.filter _
  · exact List.nodup_nil

/-- No collected job is already `Delivered`. -/
theorem collectJobs_pending (r : DeliveryRecord) :
    ∀ p ∈ collectJobs r, ∀ st,
      assocLookup r.platform_states p = some st → st.isDelivered = false := by
  intro p hp st hl
  unfold collectJobs at hp
  split at hp
  · have hcond := (List.mem_filter.mp hp).2
    rw [hl] at hcond
    simpa using hcond
  · exact absurd hp (List.not_mem_nil p)

/-- One worker tick preserves the targets. -/
theorem deliveryTick_targets (r : DeliveryRecord)
    (outs : List DeliveryOutcome) : (deliveryTick r outs).targets = r.targets := by
  simp only [deliveryTick]
  have hfold : ∀ (pairs : List (Platform × DeliveryOutcome))
      (acc : DeliveryRecord),
      (pairs.foldl (fun acc jo =>
        match jo.2.commitStatus with
        | some st => commitOne acc jo.1 st
        | none => acc) acc).targets = acc.targets := by
    intro pairs
    induction pairs with
    | nil => intro acc; rfl
    | cons jo rest ih =>
        intro acc
        simp only [List.foldl_cons]
        cases hcs : jo.2.commitStatus with
        | none => simp only [hcs]; exact ih acc
        | some st => simp only [hcs]; rw [ih, commitOne_targets]
  rw [hfold]
  split <;> rfl

/-- One worker tick preserves the C4 invariant. -/
theorem deliveryTick_inv (r : DeliveryRecord) (outs : List DeliveryOutcome)
    (hnd : r.targets.Nodup) (hinv : c4Inv r) : c4Inv (deliveryTick r outs) := by
  simp only [deliveryTick]
  have hr1targets : (if ((collectJobs r).zip outs).any
      (fun jo => jo.2.isAuthorizedJob) then
        { r with state := tryTransition r.state .Delivering }
      else r).targets = r.targets := by
    split <;> rfl
  have hr1ps : (if ((collectJobs r).zip outs).any
      (fun jo => jo.2.isAuthorizedJob) then
        { r with state := tryTransition r.state .Delivering }
      else r).platform_states = r.platform_states := by
    split <;> rfl
  refine commit_fold_inv _ _ ?_ ?_ ?_ ?_
  · exact ((zip_map_fst_sublist (collectJobs r) outs).nodup
      (collectJobs_nodup r hnd))
  · intro jo h'
    rw [hr1targets]
    obtain ⟨a, b⟩ := jo
    exact collectJobs_subset r a (List.of_mem_zip h').1
  · intro jo h' st hl
    rw [hr1ps] at hl
    obtain ⟨a, b⟩ := jo
    exact collectJobs_pending r a (List.of_mem_zip h').1 st hl
  · split
    · refine ⟨?_, ?_⟩
      · intro hD
        simp only at hD
        unfold tryTransition at hD
        split at hD
        · exact absurd hD (by simp)
        · exact hinv.1 hD
      · intro e he
        simp only at he
        unfold tryTransition at he
        split at he
        · exact absurd he (by simp)
        · exact hinv.2 e he
    · exact hinv

/-- The C4 invariant holds in every reachable record with distinct
targets. -/
theorem c4Inv_reach (r : DeliveryRecord) (h : DeliveryReach r) :
    r.targets.Nodup → c4Inv r := by
  induction h with
  | init targets =>
      intro _
      exact ⟨fun hD => by simp at hD, fun e he => by simp at he⟩
  | step r outs hr ih =>
      intro hnd
      rw [deliveryTick_targets] at hnd
      exact deliveryTick_inv r outs hnd (ih hnd)

/-- The initial record of the C4 counterexample: a record with the
duplicated target list `[MacOS, MacOS]` (the builder accepts duplicate
platforms). -/
def c4r0 : DeliveryRecord where
  state := .Queued
  platform_states := []
  targets := [.MacOS, .MacOS]

/-- After one tick in which the first delivery to macOS succeeds and the
second fails. -/
def c4r1 : DeliveryRecord := deliveryTick c4r0 [.success, .failure "boom"]

/-- C4 counterexample: with duplicated targets, one tick collects the
same platform twice; the first success commits `Delivered` on the
lifecycle, then the second failure overwrites the platform status with
`Failed` while the `Delivered → Failed` transition is rejected — a
reachable record in state `Delivered` whose (unique) target platform is
`Failed`. -/
theorem c4_duplicate_target_counterexample :
    DeliveryReach c4r1
    ∧ c4r1.state = .Delivered
    ∧ Platform.MacOS ∈ c4r1.targets
    ∧ assocLookup c4r1.platform_states .MacOS = some (.Failed "boom") :=
  ⟨DeliveryReach.step c4r0 [.success, .failure "boom"] (DeliveryReach.init _),
   by decide, by decide, by decide⟩

/-- C4 (amended): in every record state reachable via `send` and the
delivery worker, with pairwise-distinct target platforms: if the
lifecycle state is `Delivered` then every target platform's status is
`Delivered`; and every `Failed(e)` lifecycle state carries a non-empty
`platform_errors` map — some platform delivery had failed when the
`Failed` transition was taken, though a later successful retry of an
initially-unauthorized platform can leave all current platform statuses
`Delivered` while the state remains `Failed`. -/
theorem c4_delivery_invariant (r : DeliveryRecord) (h : DeliveryReach r)
    (hnd : r.targets.Nodup) :
    (r.state = .Delivered → ∀ p ∈ r.targets, ∃ st,
      assocLookup r.platform_states p = some st ∧ st.isDelivered = true)
    ∧ (∀ e, r.state = .Failed e → e.platform_errors ≠ []) := by
  obtain ⟨h1, h2⟩ := c4Inv_reach r h hnd
  exact ⟨fun hD => (allDelivered_iff _ _).mp (h1 hD), h2⟩

/-- Initial record of the C4 witness trace: one Linux target. -/
def c4w0 : DeliveryRecord where
  state := .Queued
  platform_states := []
  targets := [.Linux]

/-- C4 witness: a single-target record delivered in one tick reaches
`Delivered` with the target's status `Delivered`. -/
theorem c4_delivery_invariant_witness :
    (deliveryTick c4w0 [.success]).state = .Delivered
    ∧ ∃ st, assocLookup (deliveryTick c4w0 [.success]).platform_states .Linux
        = some st ∧ st.isDelivered = true := by
  refine ⟨by decide, ?_⟩
  exact ((c4_delivery_invariant _
    (DeliveryReach.step c4w0 [.success] (DeliveryReach.init [.Linux]))
    (by decide)).1 (by decide)) .Linux (by decide)

end Notify
